import Mathlib

/-!
Verification development for the Brawza browser-automation agent core.

The TypeScript source is shallowly embedded in Lean:

* JavaScript strings are `String` (lists of characters); truthiness of
  possibly-missing values is modelled with `Option` plus explicit
  `jsTruthy…` helpers (`undefined`/`""`/`false`/`0` are falsy).
* Asynchronous calls into external collaborators (the Puppeteer driver,
  the AI backends, `JSON.stringify`, `Date.now`) are modelled as oracle
  fields: pure functions or `Except String` values, where `.error`
  represents a rejected promise / thrown exception at the `await`.
* In-page scripts authored by the repository are embedded by their
  construction site and parameters (`ScriptId`); the value produced by a
  fixed constant script (such as the navigation probe) is computed from
  the modelled page state exactly as the script source dictates.
* Mutable stores (the conversation `Map`) are passed explicitly as
  association lists with `Map.set`/`Map.delete` semantics.
-/

set_option maxRecDepth 100000
set_option maxHeartbeats 1000000

namespace Brawza

/-! ### JavaScript value helpers -/

/-- Truthiness of an optional boolean: only `true` is truthy
(`undefined` and `false` are falsy). -/
def jsTruthyBool (o : Option Bool) : Bool :=
  o == some true

/-- Truthiness of an optional string: missing and `""` are falsy. -/
def jsTruthyStr (o : Option String) : Bool :=
  match o with
  | some s => s ≠ ""
  | none => false

/-- `s || d` for strings: the empty string falls back to the default. -/
def jsOrStr (s d : String) : String :=
  if s = "" then d else s

/-- `n || d` for optional numbers: `undefined` and `0` fall back. -/
def jsOrNat (o : Option Nat) (d : Nat) : Nat :=
  match o with
  | some n => if n = 0 then d else n
  | none => d

/-- Lexicographic strict comparison of character lists, mirroring the
code-unit comparison JavaScript performs when `<`/`<=` is applied to two
strings (all strings compared in this development are ASCII). -/
def strLtChars : List Char → List Char → Bool
  | [], [] => false
  | [], _ :: _ => true
  | _ :: _, [] => false
  | a :: as, b :: bs =>
      if a.val < b.val then true
      else if b.val < a.val then false
      else strLtChars as bs

/-- JavaScript `a <= b` on strings. -/
def jsStrLe (a b : String) : Bool :=
  !(strLtChars b.toList a.toList)

/-- The character class of the JavaScript regex `\s`
(whitespace, line terminators, NBSP, Unicode spaces, BOM). -/
def jsWhitespace (c : Char) : Bool :=
  let n := c.toNat
  n == 32 || n == 9 || n == 10 || n == 13 || n == 11 || n == 12 ||
  n == 0xa0 || n == 0x1680 || (decide (0x2000 ≤ n) && decide (n ≤ 0x200a)) ||
  n == 0x2028 || n == 0x2029 || n == 0x202f || n == 0x205f ||
  n == 0x3000 || n == 0xfeff

/-- `replace(/P+/g, ' ')`: every maximal run of characters satisfying `p`
becomes one space.  The boolean flag records whether the previous
character belonged to a run. -/
def collapseRuns (p : Char → Bool) : Bool → List Char → List Char
  | _, [] => []
  | prevInRun, c :: rest =>
      if p c then
        if prevInRun then collapseRuns p true rest
        else ' ' :: collapseRuns p true rest
      else c :: collapseRuns p false rest

/-- JavaScript `String.prototype.trim` (strips `\s` from both ends). -/
def jsTrim (l : List Char) : List Char :=
  ((l.dropWhile jsWhitespace).reverse.dropWhile jsWhitespace).reverse

/-- `String.prototype.lastIndexOf` restricted to a single character:
index of the last occurrence, `none` standing for `-1`. -/
def lastIndexOf (t : Char) : List Char → Option Nat
  | [] => none
  | c :: rest =>
      match lastIndexOf t rest with
      | some i => some (i + 1)
      | none => if c == t then some 0 else none

/-! ### Content summary (BrowserContextService.createContentSummary)

Source: `src/main/browser/browser-context-service.ts`, lines 317-341. -/

/-- The cleanup pipeline of `createContentSummary`:
`content.replace(/\s+/g, ' ').replace(/\n+/g, ' ').trim()`. -/
def cleanContent (content : List Char) : List Char :=
  jsTrim (collapseRuns (fun c => c == '\n') false
    (collapseRuns jsWhitespace false content))

def ellipsisChars : List Char := ['.', '.', '.']

/-- `BrowserContextService.createContentSummary`, embedded on character
lists.  The source compares `lastSpace > maxLength * 0.8` on IEEE
doubles; for a non-negative integer `lastSpace` and integer `maxLength`
that comparison coincides with the exact rational comparison
`5 * lastSpace > 4 * maxLength` (the rounding of `maxLength * 0.8` never
moves the product across an integer, and when `0.8 * maxLength` is an
integer the float product rounds back to exactly that integer or just
above it, leaving the strict comparison unchanged), and `lastIndexOf`
returning `-1` makes it false, which is the `none` branch below. -/
def createContentSummary (content : List Char) (maxLength : Nat) : List Char :=
  if content.isEmpty then "No content available".toList
  else
    let cleaned := cleanContent content
    if cleaned.length ≤ maxLength then cleaned
    else
      let truncated := cleaned.take maxLength
      match lastIndexOf ' ' truncated with
      | some lastSpace =>
          if 4 * maxLength < 5 * lastSpace then
            truncated.take lastSpace ++ ellipsisChars
          else truncated ++ ellipsisChars
      | none => truncated ++ ellipsisChars

/-- String-level wrapper; the default `maxLength` at the call sites that
omit it is 200. -/
def createContentSummaryS (content : String) (maxLength : Nat) : String :=
  ⟨createContentSummary content.toList maxLength⟩

/-! ### Browser context data model (shared/browser-context.ts) -/

structure Bounds where
  x : Int
  y : Int
  width : Int
  height : Int
deriving DecidableEq, Repr

structure ElementInfo where
  selector : String
  tag : String
  type : Option String := none
  text : Option String := none
  placeholder : Option String := none
  value : Option String := none
  href : Option String := none
  title : Option String := none
  ariaLabel : Option String := none
  id : Option String := none
  className : Option String := none
  isClickable : Bool
  isVisible : Bool
  bounds : Option Bounds := none
deriving DecidableEq, Repr

structure FormFieldInfo where
  id : Option String := none
  className : Option String := none
  selector : String
  name : Option String := none
  type : String
  placeholder : Option String := none
  value : Option String := none
  required : Option Bool := none
  label : Option String := none
deriving DecidableEq, Repr

structure LinkInfo where
  text : String
  href : String
  title : Option String := none
  isExternal : Bool
  id : Option String := none
  className : Option String := none
deriving DecidableEq, Repr

structure Viewport where
  width : Int
  height : Int
deriving DecidableEq, Repr

structure ScrollPos where
  x : Int
  y : Int
deriving DecidableEq, Repr

/-- The snapshot record.  The TypeScript interface declares most of
these fields non-optional, but at runtime several of them hold
`undefined` on the successful extraction path (see the
`data: { result }` wrapper note at `PageOracle`), so every field whose
runtime value can be `undefined` is an `Option` here, with `none`
standing for `undefined`. -/
structure BrowserContext where
  currentUrl : Option String
  pageTitle : Option String
  domain : Option String
  protocol : Option String
  pageContent : String
  contentSummary : Option String := none
  clickableElements : Option (List ElementInfo)
  formFields : Option (List FormFieldInfo)
  links : Option (List LinkInfo)
  buttons : Option (List ElementInfo)
  inputs : Option (List ElementInfo)
  screenshot : Option (List Nat) := none
  viewportSize : Option Viewport
  scrollPosition : Option ScrollPos
  canGoBack : Option Bool
  canGoForward : Option Bool
  navigationHistory : Option (List String)
  error : Option String := none
  lastActionError : Option String := none
  timestamp : Nat
  loadTime : Option Nat := none
deriving DecidableEq, Repr

structure BrowserContextOptions where
  includeScreenshot : Option Bool := none
  includeFullContent : Option Bool := none
  includeInvisibleElements : Option Bool := none
  maxContentLength : Option Nat := none
  maxElementsPerType : Option Nat := none
deriving DecidableEq, Repr

/-! ### Context extraction (BrowserContextService)

Source: `src/main/browser/browser-context-service.ts`.  Every `await`
into the Puppeteer layer is an oracle field of type `Except String _`:
`.error msg` is a rejected promise at that call site, `.ok none` is a
driver result with `success: false`, and `.ok (some v)` a successful
result carrying the value `v` the in-page script produced.

Crucially, `PuppeteerManager.evaluateScript` does **not** return the
script's value as `data`: it returns `{ success: true, data: { result } }`
— the value wrapped in a `result` property (part_007 lines 440-445,
pinned by `tests/unit/puppeteer-manager.test.ts` line 211:
`expect(result.data).toEqual({ result: 'Script result' })`).  The four
script-based extraction steps return `result.data` raw on success, so
the properties `extractContext` then reads off them
(`.url`, `.canGoForward`, `.clickable`, `.viewport`, …) do not exist on
the wrapper object and evaluate to `undefined`.  Each step therefore
returns a `…Return` value: `wrapper v` is the success path (the
`{ result: v }` object, on which every property the caller reads is
`undefined`), and `fallback` is the step's typed driver-failure
default.  The navigation probe's script value is determined by the
page's `window.history.length`, the `Nat` carried by the oracle.
`getPageContent` is not script-based and has no wrapper. -/

structure BasicPageInfo where
  url : String
  title : String
  domain : String
  protocol : String
deriving DecidableEq, Repr

/-- The value of the element-inventory script, with the script's own
keys — note the script produces `formFields`, not the `forms` key the
service's typed fallback uses. -/
structure ElementsData where
  buttons : List ElementInfo
  links : List LinkInfo
  inputs : List ElementInfo
  formFields : List FormFieldInfo
  clickable : List ElementInfo
deriving DecidableEq, Repr

/-- The value of the navigation probe script
`({canGoBack: window.history.length > 1, canGoForward: false,
history: []})`. -/
structure NavState where
  canGoBack : Bool
  canGoForward : Bool
  history : List String
deriving DecidableEq, Repr

structure ViewportState where
  viewport : Viewport
  scroll : ScrollPos
deriving DecidableEq, Repr

structure PageOracle where
  basicInfo : Except String (Option BasicPageInfo)
  content : Except String (Option String)
  elements : Except String (Option ElementsData)
  navigation : Except String (Option Nat)
  viewport : Except String (Option ViewportState)
  shot : Except String (Option (List Nat))
  time0 : Nat := 0
  time1 : Nat := 0

/-- What `getBasicPageInfo` returns: `result.data` (the
`{ result: v }` wrapper) on success, or its "unknown" literal. -/
inductive BasicReturn where
  | wrapper (scriptValue : BasicPageInfo)
  | fallback
deriving DecidableEq, Repr

/-- Reading `.url` off the step's return value: `undefined` on the
wrapper (the property does not exist there), the literal on the
fallback. -/
def BasicReturn.readUrl : BasicReturn → Option String
  | .wrapper _ => none
  | .fallback => some "unknown"

def BasicReturn.readTitle : BasicReturn → Option String
  | .wrapper _ => none
  | .fallback => some "Unknown"

def BasicReturn.readDomain : BasicReturn → Option String
  | .wrapper _ => none
  | .fallback => some "unknown"

def BasicReturn.readProtocol : BasicReturn → Option String
  | .wrapper _ => none
  | .fallback => some "unknown"

/-- `BrowserContextService.getBasicPageInfo`: returns `result.data`
raw on success (the wrapper), the "unknown" record on driver failure;
a rejected promise propagates. -/
def getBasicPageInfo (o : PageOracle) : Except String BasicReturn :=
  match o.basicInfo with
  | .error e => .error e
  | .ok (some v) => .ok (.wrapper v)
  | .ok none => .ok .fallback

/-- `contentResult.success ? contentResult.data?.text || '' : ''`
(`getPageContent` builds `data` directly, without the script wrapper). -/
def getPageContentText (o : PageOracle) : Except String String :=
  match o.content with
  | .error e => .error e
  | .ok (some t) => .ok t
  | .ok none => .ok ""

/-- What `extractInteractiveElements` returns: the wrapper on success,
its typed empty-collections literal (keyed `clickable`/`forms`/…) on
driver failure. -/
inductive ElementsReturn where
  | wrapper (scriptValue : ElementsData)
  | fallback
deriving DecidableEq, Repr

def ElementsReturn.readClickable : ElementsReturn → Option (List ElementInfo)
  | .wrapper _ => none
  | .fallback => some []

/-- `.forms` exists only on the fallback literal — on the wrapper it is
doubly absent (the wrapper hides the script value, which itself uses
the key `formFields`). -/
def ElementsReturn.readForms : ElementsReturn → Option (List FormFieldInfo)
  | .wrapper _ => none
  | .fallback => some []

def ElementsReturn.readLinks : ElementsReturn → Option (List LinkInfo)
  | .wrapper _ => none
  | .fallback => some []

def ElementsReturn.readButtons : ElementsReturn → Option (List ElementInfo)
  | .wrapper _ => none
  | .fallback => some []

def ElementsReturn.readInputs : ElementsReturn → Option (List ElementInfo)
  | .wrapper _ => none
  | .fallback => some []

/-- `BrowserContextService.extractInteractiveElements`. -/
def extractInteractiveElements (o : PageOracle) : Except String ElementsReturn :=
  match o.elements with
  | .error e => .error e
  | .ok (some v) => .ok (.wrapper v)
  | .ok none => .ok .fallback

/-- What `getNavigationState` returns: the wrapper on success, its
typed `{canGoBack: false, canGoForward: false, history: []}` literal on
driver failure. -/
inductive NavReturn where
  | wrapper (scriptValue : NavState)
  | fallback
deriving DecidableEq, Repr

def NavReturn.readCanGoBack : NavReturn → Option Bool
  | .wrapper _ => none
  | .fallback => some false

def NavReturn.readCanGoForward : NavReturn → Option Bool
  | .wrapper _ => none
  | .fallback => some false

def NavReturn.readHistory : NavReturn → Option (List String)
  | .wrapper _ => none
  | .fallback => some []

/-- `BrowserContextService.getNavigationState`: on script success the
wrapper carries the script's value — `canGoBack` from
`window.history.length > 1` and the hard-coded `canGoForward: false`,
`history: []` — but the caller reads its properties off the wrapper,
where they are `undefined`. -/
def getNavigationState (o : PageOracle) : Except String NavReturn :=
  match o.navigation with
  | .error e => .error e
  | .ok (some historyLength) =>
      .ok (.wrapper { canGoBack := decide (historyLength > 1),
                      canGoForward := false, history := [] })
  | .ok none => .ok .fallback

/-- What `getViewportInfo` returns: wrapper on success, the
1366×768 / origin literal on driver failure. -/
inductive ViewportReturn where
  | wrapper (scriptValue : ViewportState)
  | fallback
deriving DecidableEq, Repr

def ViewportReturn.readViewport : ViewportReturn → Option Viewport
  | .wrapper _ => none
  | .fallback => some { width := 1366, height := 768 }

def ViewportReturn.readScroll : ViewportReturn → Option ScrollPos
  | .wrapper _ => none
  | .fallback => some { x := 0, y := 0 }

/-- `BrowserContextService.getViewportInfo`. -/
def getViewportInfo (o : PageOracle) : Except String ViewportReturn :=
  match o.viewport with
  | .error e => .error e
  | .ok (some v) => .ok (.wrapper v)
  | .ok none => .ok .fallback

/-- The optional screenshot step of `extractContext`: only taken when
requested, and a failed capture simply leaves the field unset
(`takeScreenshot` exposes the image via its `screenshot` property, not
the script wrapper). -/
def getScreenshotStep (o : PageOracle) (req : Bool) :
    Except String (Option (List Nat)) :=
  if req then o.shot else .ok none

/-- The body of the `try` block of
`BrowserContextService.extractContext`: the five extraction steps run in
sequence (each `await`ed), and the first rejected driver call aborts the
rest with its exception. -/
def extractContextBody (o : PageOracle) (options : BrowserContextOptions) :
    Except String BrowserContext :=
  match getBasicPageInfo o with
  | .error e => .error e
  | .ok pageInfo =>
  match getPageContentText o with
  | .error e => .error e
  | .ok pageContent =>
  match extractInteractiveElements o with
  | .error e => .error e
  | .ok elements =>
  match getNavigationState o with
  | .error e => .error e
  | .ok nav =>
  match getViewportInfo o with
  | .error e => .error e
  | .ok vp =>
  match getScreenshotStep o (jsTruthyBool options.includeScreenshot) with
  | .error e => .error e
  | .ok screenshot =>
  .ok {
    currentUrl := pageInfo.readUrl
    pageTitle := pageInfo.readTitle
    domain := pageInfo.readDomain
    protocol := pageInfo.readProtocol
    pageContent := pageContent
    contentSummary :=
      some (createContentSummaryS pageContent (options.maxContentLength.getD 200))
    clickableElements := elements.readClickable
    formFields := elements.readForms
    links := elements.readLinks
    buttons := elements.readButtons
    inputs := elements.readInputs
    screenshot := screenshot
    viewportSize := vp.readViewport
    scrollPosition := vp.readScroll
    canGoBack := nav.readCanGoBack
    canGoForward := nav.readCanGoForward
    navigationHistory := nav.readHistory
    timestamp := o.time1
    loadTime := some (o.time1 - o.time0) }

/-- The minimal snapshot returned by the `catch` block of
`extractContext`.  Here every field is assigned a real (defined) value
by the literal in the source. -/
def minimalContext (e : String) (t : Nat) : BrowserContext := {
  currentUrl := some "unknown"
  pageTitle := some "Error"
  domain := some "unknown"
  protocol := some "unknown"
  pageContent := ""
  clickableElements := some []
  formFields := some []
  links := some []
  buttons := some []
  inputs := some []
  viewportSize := some { width := 0, height := 0 }
  scrollPosition := some { x := 0, y := 0 }
  canGoBack := some false
  canGoForward := some false
  navigationHistory := some []
  error := some e
  timestamp := t }

/-- `BrowserContextService.extractContext`: total — an internal failure
is converted into the minimal snapshot instead of propagating. -/
def extractContext (o : PageOracle) (options : BrowserContextOptions) :
    BrowserContext :=
  match extractContextBody o options with
  | .ok c => c
  | .error e => minimalContext e o.time1

/-! ### Tool catalog and safety levels (shared/browser-tools.ts) -/

/-- `ToolSafetyLevel` is a TypeScript string enum; `str` gives the
runtime string value of each member, which is what the `<=` in
`canExecuteTool` actually compares. -/
inductive ToolSafetyLevel where
  | safe
  | moderate
  | dangerous
deriving DecidableEq, Repr

def ToolSafetyLevel.str : ToolSafetyLevel → String
  | .safe => "safe"
  | .moderate => "moderate"
  | .dangerous => "dangerous"

/-- `TOOL_SAFETY_LEVELS` from `shared/browser-tools.ts`. -/
def TOOL_SAFETY_LEVELS : List (String × ToolSafetyLevel) := [
  ("navigate", .safe),
  ("screenshot", .safe),
  ("extract_text", .safe),
  ("extract_links", .safe),
  ("get_page_info", .safe),
  ("wait_for_element", .safe),
  ("click", .moderate),
  ("type", .moderate),
  ("scroll", .moderate),
  ("fill_form", .dangerous),
  ("evaluate_script", .dangerous)]

/-- `TOOL_SAFETY_LEVELS[toolCall.name] || ToolSafetyLevel.MODERATE`
(the enum's string values are never falsy, so `||` fires exactly on a
missing key). -/
def safetyOf (name : String) : ToolSafetyLevel :=
  (TOOL_SAFETY_LEVELS.lookup name).getD .moderate

/-! ### Tool calls and results -/

/-- The argument record of a tool call (`Record<string, any>`); `none`
is an absent (`undefined`) property. -/
structure ToolArgs where
  url : Option String := none
  selector : Option String := none
  description : Option String := none
  text : Option String := none
  clear : Option Bool := none
  direction : Option String := none
  amount : Option Int := none
  fullPage : Option Bool := none
  filter : Option String := none
  timeout : Option Int := none
  fields : Option (List (String × String)) := none
  script : Option String := none
deriving DecidableEq, Repr

structure BrowserToolCall where
  id : String
  name : String
  arguments : ToolArgs
deriving DecidableEq, Repr

/-- A dynamically-typed payload (`data: any`).  `str` is a JS string
value; `formResults` is the object `{ formData, currentUrl }` built by
`PuppeteerManager.fillForm`; `pageInfo` is the record built by
`executeGetPageInfo`; `value` stands for any other JS value and carries
the only observation the executor makes of such a value, namely
`data?.length || 0`. -/
inductive AutoData where
  | str (s : String)
  | formResults (results : List (String × Bool)) (currentUrl : String)
  | pageInfo (url title domain : Option String)
      (buttons links formFields : Nat) (canGoBack canGoForward : Option Bool)
  | value (tag : String) (jsLength : Nat)
deriving DecidableEq, Repr

/-- `data?.length || 0` (a JS string's `length`, an array's `length`,
`0` for objects and other values without one). -/
def AutoData.lengthJs : AutoData → Nat
  | .str s => s.length
  | .formResults _ _ => 0
  | .pageInfo _ _ _ _ _ _ _ _ => 0
  | .value _ n => n

def jsLengthOf (d : Option AutoData) : Nat :=
  match d with
  | some x => x.lengthJs
  | none => 0

/-- `AutomationResult` from `puppeteer-manager.ts`. -/
structure AutomationResult where
  success : Bool
  data : Option AutoData := none
  error : Option String := none
  screenshot : Option (List Nat) := none
deriving DecidableEq, Repr

/-- `BrowserToolResult` from `shared/browser-tools.ts`. -/
structure BrowserToolResult where
  success : Bool
  data : Option AutoData := none
  error : Option String := none
  screenshot : Option (List Nat) := none
  message : Option String := none
deriving DecidableEq, Repr

/-! ### The automation driver (PuppeteerManager)

The driver is the external collaborator.  `ready`/`initOk` model
`isReady()` and the outcome of a lazy `initialize()`;  `pages` is the
key set of the page map; the `…Res` fields are the outcomes of the
page-interaction primitives; `fieldFill` tells whether the per-field
`waitForSelector`/`click`/select-all/`type` sequence inside `fillForm`
succeeds for a given selector and value; `pageOracle` is the behaviour
the page presents to the context-extraction probes. -/

/-- An in-page script authored by the repository, identified by its
construction site and parameters. -/
inductive ScriptId where
  | basicInfoProbe
  | elementsProbe (includeInvisible : Bool) (maxPerType maxClickable : Nat)
  | navigationProbe
  | viewportProbe
  | scrollBy (dx dy : Int)
  | extractTextScript (selector : Option String)
  | extractLinksScript (filter : Option String)
  | waitForElementScript (selector : String) (timeoutMs : Int)
  | userScript (source : String)
deriving DecidableEq, Repr

/-- One invocation of a PuppeteerManager method, for tracing which
driver primitives a tool execution reaches. -/
inductive ManagerCall where
  | initBrowser
  | navigateToUrl (pageId url : String)
  | clickElement (pageId selector : String)
  | fillForm (pageId : String) (fields : List (String × String))
  | evaluateScript (pageId : String) (script : ScriptId)
  | takeScreenshot (pageId : String) (fullPage : Bool)
  | getPageContent (pageId : String)
deriving DecidableEq, Repr

structure Driver where
  ready : Bool
  initOk : Bool
  pages : List String
  currentUrl : String → String
  fieldFill : String → String → String → Bool
  navigateRes : String → String → AutomationResult
  clickRes : String → String → AutomationResult
  evalRes : String → ScriptId → AutomationResult
  shotRes : String → Bool → AutomationResult
  pageOracle : String → PageOracle

def pageNotFound (pid : String) : AutomationResult :=
  { success := false, error := some ("Page " ++ pid ++ " not found") }

/-- `navigateToUrl` prepends `https://` when the URL has no protocol. -/
def ensureProtocol (url : String) : String :=
  if !(url.startsWith "http://") && !(url.startsWith "https://") then
    "https://" ++ url
  else url

def pmNavigateToUrl (d : Driver) (pid url : String) : AutomationResult :=
  if d.pages.contains pid then d.navigateRes pid (ensureProtocol url)
  else pageNotFound pid

def pmClickElement (d : Driver) (pid selector : String) : AutomationResult :=
  if d.pages.contains pid then d.clickRes pid selector
  else pageNotFound pid

def pmEvaluateScript (d : Driver) (pid : String) (s : ScriptId) :
    AutomationResult :=
  if d.pages.contains pid then d.evalRes pid s
  else pageNotFound pid

def pmTakeScreenshot (d : Driver) (pid : String) (fullPage : Bool) :
    AutomationResult :=
  if d.pages.contains pid then d.shotRes pid fullPage
  else pageNotFound pid

/-- `PuppeteerManager.fillForm`: iterates the field map in order; each
field's fill sequence is tried under its own `try`, so one field's
failure only marks that field `false` in the result map and the loop
continues.  The overall result is always `success: true` (when the page
exists) with the per-field map in `data`. -/
def pmFillForm (d : Driver) (pid : String)
    (formData : List (String × String)) : AutomationResult :=
  if d.pages.contains pid then
    { success := true
      data := some (.formResults
        (formData.map (fun f => (f.1, d.fieldFill pid f.1 f.2)))
        (d.currentUrl pid)) }
  else pageNotFound pid

/-! ### Tool executor (BrowserToolExecutor, src/unnamed/part_004)

Each `execute…` handler returns the `BrowserToolResult` together with
the list of PuppeteerManager calls it performed. -/

structure ToolExecutionOptions where
  pageId : String
  autoConfirm : Option Bool := none
  safetyLevel : Option ToolSafetyLevel := none
  updateContext : Option Bool := none
deriving DecidableEq, Repr

/-- `BrowserToolExecutor.canExecuteTool`.  The comparison
`safetyLevel <= options.safetyLevel` in the source is a JavaScript
string comparison of the enum's string values (`"dangerous"`,
`"moderate"`, `"safe"`), embedded here verbatim via `jsStrLe`. -/
def canExecuteTool (_toolName : String) (safetyLevel : ToolSafetyLevel)
    (options : ToolExecutionOptions) : Bool :=
  if jsTruthyBool options.autoConfirm then true
  else
    safetyLevel == .safe ||
    (match options.safetyLevel with
     | some granted => jsStrLe safetyLevel.str granted.str
     | none => false)

def executeNavigate (d : Driver) (args : ToolArgs)
    (options : ToolExecutionOptions) : BrowserToolResult × List ManagerCall :=
  match args.url with
  | none => ({ success := false, error := some "URL is required for navigation" }, [])
  | some url =>
    if url = "" then
      ({ success := false, error := some "URL is required for navigation" }, [])
    else
      let r := pmNavigateToUrl d options.pageId url
      ({ success := r.success, error := r.error,
         message := if r.success then some ("Navigated to " ++ url) else none },
       [.navigateToUrl options.pageId url])

def executeClick (d : Driver) (args : ToolArgs)
    (options : ToolExecutionOptions) : BrowserToolResult × List ManagerCall :=
  match args.selector with
  | none => ({ success := false, error := some "Selector is required for click action" }, [])
  | some selector =>
    if selector = "" then
      ({ success := false, error := some "Selector is required for click action" }, [])
    else
      let r := pmClickElement d options.pageId selector
      ({ success := r.success, error := r.error,
         message := if r.success then
             some ("Clicked " ++ jsOrStr (args.description.getD "") selector)
           else none },
       [.clickElement options.pageId selector])

/-- `executeType`: note that `!selector || !text` treats an *empty*
`text` string as missing, and that on the happy path the handler
delegates to `fillForm` with a single-field map. -/
def executeType (d : Driver) (args : ToolArgs)
    (options : ToolExecutionOptions) : BrowserToolResult × List ManagerCall :=
  match args.selector, args.text with
  | some selector, some text =>
    if selector = "" || text = "" then
      ({ success := false,
         error := some "Selector and text are required for type action" }, [])
    else
      let r := pmFillForm d options.pageId [(selector, text)]
      ({ success := r.success, error := r.error,
         message := if r.success then
             some ("Typed \"" ++ text ++ "\" into " ++ selector)
           else none },
       [.fillForm options.pageId [(selector, text)]])
  | _, _ =>
    ({ success := false,
       error := some "Selector and text are required for type action" }, [])

def executeScroll (d : Driver) (args : ToolArgs)
    (options : ToolExecutionOptions) : BrowserToolResult × List ManagerCall :=
  match args.direction with
  | none => ({ success := false, error := some "Direction is required for scroll action" }, [])
  | some direction =>
    if direction = "" then
      ({ success := false, error := some "Direction is required for scroll action" }, [])
    else
      let amount := args.amount.getD 500
      let script? : Option ScriptId :=
        if direction = "up" then some (.scrollBy 0 (-amount))
        else if direction = "down" then some (.scrollBy 0 amount)
        else if direction = "left" then some (.scrollBy (-amount) 0)
        else if direction = "right" then some (.scrollBy amount 0)
        else none
      match script? with
      | none =>
        ({ success := false,
           error := some ("Invalid scroll direction: " ++ direction) }, [])
      | some script =>
        let r := pmEvaluateScript d options.pageId script
        ({ success := r.success, error := r.error,
           message := if r.success then
               some ("Scrolled " ++ direction ++ " by " ++ toString amount ++ "px")
             else none },
         [.evaluateScript options.pageId script])

def executeScreenshot (d : Driver) (args : ToolArgs)
    (options : ToolExecutionOptions) : BrowserToolResult × List ManagerCall :=
  let fullPage := args.fullPage.getD false
  let r := pmTakeScreenshot d options.pageId fullPage
  ({ success := r.success, error := r.error, screenshot := r.screenshot,
     message := if r.success then some "Screenshot captured" else none },
   [.takeScreenshot options.pageId fullPage])

def executeExtractText (d : Driver) (args : ToolArgs)
    (options : ToolExecutionOptions) : BrowserToolResult × List ManagerCall :=
  let sel : Option String :=
    if jsTruthyStr args.selector then args.selector else none
  let script := ScriptId.extractTextScript sel
  let r := pmEvaluateScript d options.pageId script
  ({ success := r.success, error := r.error,
     data := if r.success then r.data else none,
     message := if r.success then
         some ("Extracted text" ++
           (match sel with | some s => " from " ++ s | none => ""))
       else none },
   [.evaluateScript options.pageId script])

def executeExtractLinks (d : Driver) (args : ToolArgs)
    (options : ToolExecutionOptions) : BrowserToolResult × List ManagerCall :=
  let script := ScriptId.extractLinksScript
    (if jsTruthyStr args.filter then args.filter else none)
  let r := pmEvaluateScript d options.pageId script
  ({ success := r.success, error := r.error,
     data := if r.success then r.data else none,
     message := if r.success then
         some ("Extracted " ++ toString (jsLengthOf r.data) ++ " links")
       else none },
   [.evaluateScript options.pageId script])

def executeWaitForElement (d : Driver) (args : ToolArgs)
    (options : ToolExecutionOptions) : BrowserToolResult × List ManagerCall :=
  match args.selector with
  | none => ({ success := false, error := some "Selector is required for wait action" }, [])
  | some selector =>
    if selector = "" then
      ({ success := false, error := some "Selector is required for wait action" }, [])
    else
      let timeout := args.timeout.getD 5000
      let script := ScriptId.waitForElementScript selector timeout
      let r := pmEvaluateScript d options.pageId script
      ({ success := r.success, error := r.error,
         message := if r.success then some ("Element " ++ selector ++ " found")
           else some ("Element " ++ selector ++ " not found within " ++
             toString timeout ++ "ms") },
       [.evaluateScript options.pageId script])

/-- The PuppeteerManager calls `extractContext` performs, in order; a
rejected call aborts the sequence (the exception lands in
`extractContext`'s catch). -/
def isOkE (e : Except String α) : Bool :=
  match e with
  | .ok _ => true
  | .error _ => false

def extractCalls (pid : String) (o : PageOracle)
    (options : BrowserContextOptions) : List ManagerCall :=
  [.evaluateScript pid .basicInfoProbe] ++
  (if isOkE o.basicInfo then
    [.getPageContent pid] ++
    (if isOkE o.content then
      [.evaluateScript pid (.elementsProbe
        (jsTruthyBool options.includeInvisibleElements)
        (jsOrNat options.maxElementsPerType 20)
        (jsOrNat options.maxElementsPerType 30))] ++
      (if isOkE o.elements then
        [.evaluateScript pid .navigationProbe] ++
        (if isOkE o.navigation then
          [.evaluateScript pid .viewportProbe] ++
          (if isOkE o.viewport then
            (if jsTruthyBool options.includeScreenshot then
              [.takeScreenshot pid false] else [])
          else [])
        else [])
      else [])
    else [])
  else [])

/-- The host engine's TypeError message for reading `.length` of
`undefined` (engine-specific text, abbreviated here). -/
def lengthOfUndefinedMsg : String := "Cannot read length of undefined"

/-- `executeGetPageInfo` builds its record from the snapshot; reading
`.length` of an element collection throws a TypeError when the
collection is `undefined` — which the fully successful extraction path
produces, see the `data: { result }` wrapper note — and the handler's
own `catch` turns that into a failed result. -/
def executeGetPageInfo (d : Driver) (_args : ToolArgs)
    (options : ToolExecutionOptions) : BrowserToolResult × List ManagerCall :=
  let opts : BrowserContextOptions :=
    { includeScreenshot := some false, maxContentLength := some 500 }
  let context := extractContext (d.pageOracle options.pageId) opts
  let trace := extractCalls options.pageId (d.pageOracle options.pageId) opts
  match context.buttons, context.links, context.formFields with
  | some buttons, some links, some formFields =>
    ({ success := true
       data := some (.pageInfo context.currentUrl context.pageTitle
         context.domain buttons.length links.length formFields.length
         context.canGoBack context.canGoForward)
       message := some "Page information extracted" }, trace)
  | _, _, _ =>
    ({ success := false,
       error := some ("Failed to get page info: " ++ lengthOfUndefinedMsg) },
     trace)

/-- `executeFillForm`: delegates to the driver's `fillForm` and builds
the tool result from its `success`/`error` only — the per-field result
map in `result.data` is not forwarded. -/
def executeFillForm (d : Driver) (args : ToolArgs)
    (options : ToolExecutionOptions) : BrowserToolResult × List ManagerCall :=
  match args.fields with
  | none =>
    ({ success := false,
       error := some "Fields object is required for form filling" }, [])
  | some fields =>
    let r := pmFillForm d options.pageId fields
    ({ success := r.success, error := r.error,
       message := if r.success then
           some ("Filled " ++ toString fields.length ++ " form fields")
         else none },
     [.fillForm options.pageId fields])

def executeEvaluateScript (d : Driver) (args : ToolArgs)
    (options : ToolExecutionOptions) : BrowserToolResult × List ManagerCall :=
  match args.script with
  | none => ({ success := false, error := some "Script is required for evaluation" }, [])
  | some script =>
    if script = "" then
      ({ success := false, error := some "Script is required for evaluation" }, [])
    else
      let r := pmEvaluateScript d options.pageId (.userScript script)
      ({ success := r.success, error := r.error,
         data := if r.success then r.data else none,
         message := if r.success then some "Script executed successfully" else none },
       [.evaluateScript options.pageId (.userScript script)])

/-- The `switch (toolCall.name)` dispatch of `executeTool`. -/
def dispatchTool (d : Driver) (toolCall : BrowserToolCall)
    (options : ToolExecutionOptions) : BrowserToolResult × List ManagerCall :=
  if toolCall.name = "navigate" then executeNavigate d toolCall.arguments options
  else if toolCall.name = "click" then executeClick d toolCall.arguments options
  else if toolCall.name = "type" then executeType d toolCall.arguments options
  else if toolCall.name = "scroll" then executeScroll d toolCall.arguments options
  else if toolCall.name = "screenshot" then executeScreenshot d toolCall.arguments options
  else if toolCall.name = "extract_text" then executeExtractText d toolCall.arguments options
  else if toolCall.name = "extract_links" then executeExtractLinks d toolCall.arguments options
  else if toolCall.name = "wait_for_element" then executeWaitForElement d toolCall.arguments options
  else if toolCall.name = "get_page_info" then executeGetPageInfo d toolCall.arguments options
  else if toolCall.name = "fill_form" then executeFillForm d toolCall.arguments options
  else if toolCall.name = "evaluate_script" then executeEvaluateScript d toolCall.arguments options
  else ({ success := false, error := some ("Unknown tool: " ++ toolCall.name) }, [])

/-- The "confirmation required" `ToolResult` returned by the safety
gate of `executeTool`. -/
def confirmationRequired (name : String) (level : ToolSafetyLevel) :
    BrowserToolResult :=
  { success := false
    error := some ("Tool " ++ name ++ " requires " ++ level.str ++
      " permission level")
    message := some ("Please confirm execution of " ++ name) }

/-- `BrowserToolExecutor.executeTool`: resolve the safety level, gate,
lazily initialize the driver, dispatch, and optionally refresh the
context (the refresh mutates only the executor's internal context
manager; the driver calls it makes are recorded in the trace, and its
`try`/`catch` is vacuous because `extractContext` is total). -/
def executeTool (d : Driver) (toolCall : BrowserToolCall)
    (options : ToolExecutionOptions) : BrowserToolResult × List ManagerCall :=
  let safetyLevel := safetyOf toolCall.name
  if !canExecuteTool toolCall.name safetyLevel options then
    (confirmationRequired toolCall.name safetyLevel, [])
  else
    let initTrace : List ManagerCall := if d.ready then [] else [.initBrowser]
    if !d.ready && !d.initOk then
      ({ success := false, error := some "Failed to initialize browser automation" },
       initTrace)
    else
      let (result, trace) := dispatchTool d toolCall options
      let ctxTrace : List ManagerCall :=
        if jsTruthyBool options.updateContext && result.success then
          extractCalls options.pageId (d.pageOracle options.pageId)
            { includeScreenshot := some false, maxContentLength := some 1000 }
        else []
      (result, initTrace ++ trace ++ ctxTrace)

/-! ### Conversation store and orchestration loop (BrowserAgent,
src/unnamed/part_008)

The conversation `Map` is an association list with JS `Map` semantics:
`set` overwrites in place or appends, `delete` removes, iteration is in
insertion order.  `Date.now()` is the world's `now` oracle;
`JSON.stringify`, the system-prompt text construction
(`createContextualSystemPrompt`, pure string formatting whose output no
claim inspects) and the context manager's summary are oracle fields. -/

inductive Role where
  | system
  | user
  | assistant
  | tool
deriving DecidableEq, Repr

structure AIMessage where
  role : Role
  content : String
  timestamp : Option Nat := none
  toolCalls : Option (List BrowserToolCall) := none
  toolCallId : Option String := none
deriving DecidableEq, Repr

structure AIResponse where
  content : String
  toolCalls : Option (List BrowserToolCall) := none
deriving DecidableEq, Repr

structure AgentConversation where
  id : String
  messages : List AIMessage
  currentUrl : Option String := none
  pageId : String
  createdAt : Nat
  lastActivity : Nat
deriving DecidableEq, Repr

structure AgentExecutionOptions where
  serviceType : String
  pageId : String
  autoConfirm : Option Bool := none
  safetyLevel : Option ToolSafetyLevel := none
  maxIterations : Option Nat := none
  includeScreenshot : Option Bool := none
deriving DecidableEq, Repr

structure AgentResponse where
  message : String
  toolResults : List BrowserToolResult := []
  contextUpdate : Option String := none
  screenshot : Option (List Nat) := none
deriving DecidableEq, Repr

/-- An AI backend: `supportsToolCalling` plus the response to a message
list (`.error` is a thrown/rejected request).  The provider-specific
tool descriptor list is a pure reshaping of the static catalog and does
not influence sequencing, so it is not modelled separately. -/
structure AIServiceModel where
  supportsToolCalling : Bool
  respond : List AIMessage → Except String AIResponse

structure AgentWorld where
  driver : Driver
  service : Option AIServiceModel
  promptOf : BrowserContext → String
  stringify : AutoData → String
  ctxSummary : String
  now : Nat

/-- One outbound call to the AI backend, for tracing when the follow-up
request is made. -/
inductive ProviderCall where
  | initial (messages : List AIMessage)
  | followUp (messages : List AIMessage)
deriving DecidableEq

abbrev ConvStore := List (String × AgentConversation)

/-- JS `Map.prototype.set`: overwrite the existing binding in place, or
append a new one. -/
def storeSet (store : ConvStore) (id : String) (c : AgentConversation) :
    ConvStore :=
  if (store.lookup id).isSome then
    store.map (fun p => if p.1 = id then (id, c) else p)
  else store ++ [(id, c)]

/-- `BrowserAgent.getConversation`. -/
def getConversation (store : ConvStore) (id : String) :
    Option AgentConversation :=
  store.lookup id

/-- `BrowserAgent.clearConversation` (`Map.prototype.delete`). -/
def clearConversation (store : ConvStore) (id : String) : ConvStore :=
  store.filter (fun p => p.1 ≠ id)

def maxAgeMs : Nat := 24 * 60 * 60 * 1000

/-- `BrowserAgent.getActiveConversations`: values newer than 24h,
sorted by `lastActivity` descending (`Array.prototype.sort` is stable;
`b.lastActivity - a.lastActivity <= 0` keeps `a` before `b`, which is
the `le` below).  JS `now - lastActivity` can be negative and is then
`< maxAge`; truncated `Nat` subtraction gives `0 < maxAge` in the same
cases, so the filter agrees. -/
def getActiveConversations (store : ConvStore) (now : Nat) :
    List AgentConversation :=
  ((store.map Prod.snd).filter
    (fun c => now - c.lastActivity < maxAgeMs)).mergeSort
    (fun a b => b.lastActivity ≤ a.lastActivity)

/-- `BrowserAgent.createOrGetConversation` (no `initialUrl` is passed by
`sendMessage`). -/
def createOrGetConversation (store : ConvStore) (id pageId : String)
    (now : Nat) : AgentConversation × ConvStore :=
  match store.lookup id with
  | some conv =>
      let c := { conv with lastActivity := now }
      (c, storeSet store id c)
  | none =>
      let c : AgentConversation :=
        { id := id, messages := [], currentUrl := none, pageId := pageId,
          createdAt := now, lastActivity := now }
      (c, storeSet store id c)

/-- `BrowserAgent.hasContextChanged`: also records the mutation of
`conversation.currentUrl` performed by the source.
`!conversation.currentUrl` is JS falsiness (`undefined` or `""`), and
the snapshot's `currentUrl` — possibly `undefined` itself — is stored
as is; the second test is JS strict inequality between the two
string-or-undefined values. -/
def hasContextChanged (conv : AgentConversation) (context : BrowserContext) :
    Bool × AgentConversation :=
  if jsTruthyStr conv.currentUrl = false then
    (true, { conv with currentUrl := context.currentUrl })
  else if conv.currentUrl ≠ context.currentUrl then
    (true, { conv with currentUrl := context.currentUrl })
  else (false, conv)

/-- `BrowserAgent.formatToolResult`.  An interpolated `undefined` error
renders as the string `"undefined"`; `result.message || default` treats
the empty string as missing. -/
def formatToolResult (w : AgentWorld) (r : BrowserToolResult) : String :=
  if !r.success then "Error: " ++ r.error.getD "undefined"
  else
    let response := jsOrStr (r.message.getD "") "Action completed successfully"
    match r.data with
    | none => response
    | some (.str s) => response ++ "\nResult: " ++ s
    | some d => response ++ "\nResult: " ++ w.stringify d

/-- `BrowserAgent.executeToolCalls`: strictly sequential over the calls
in the order the backend returned them, one result pushed per call (the
inter-call settling delay has no observable effect in this model).  Each
call runs with `updateContext: true` and the caller's confirmation and
safety options. -/
def executeToolCalls (d : Driver) (toolCalls : List BrowserToolCall)
    (options : AgentExecutionOptions) : List BrowserToolResult :=
  toolCalls.map (fun tc =>
    (executeTool d tc
      { pageId := options.pageId, autoConfirm := options.autoConfirm,
        safetyLevel := options.safetyLevel, updateContext := some true }).1)

/-- `BrowserAgent.getFollowUpResponse`: a failed follow-up request is
caught and replaced by a canned response. -/
def getFollowUpResponse (svc : AIServiceModel) (messages : List AIMessage) :
    AIResponse :=
  match svc.respond messages with
  | .ok r => r
  | .error _ => { content := "Actions completed successfully." }

/-- The context options `sendMessage` uses for its pre-turn refresh. -/
def turnContextOptions : BrowserContextOptions := { maxContentLength := some 2000 }

/-- The context snapshot taken at the start of a turn. -/
def turnContext (w : AgentWorld) (pageId : String) : BrowserContext :=
  extractContext (w.driver.pageOracle pageId) turnContextOptions

/-- The conversation as it stands right before the provider call: the
stored (or fresh) conversation, with the contextual system message
appended when this is the first turn or the URL changed (note the
short-circuit: on a first turn `hasContextChanged` is not consulted and
`currentUrl` is not updated), followed by the user message. -/
def turnConversation (w : AgentWorld) (store : ConvStore)
    (conversationId userMessage : String) (options : AgentExecutionOptions) :
    AgentConversation :=
  let conv0 := (createOrGetConversation store conversationId options.pageId w.now).1
  let context := turnContext w options.pageId
  let prompt := w.promptOf context
  let (changed, conv1) :=
    if conv0.messages.length = 0 then (true, conv0)
    else hasContextChanged conv0 context
  let conv2 :=
    if changed then
      { conv1 with messages := conv1.messages ++
          [{ role := .system, content := prompt, timestamp := some w.now }] }
    else conv1
  { conv2 with messages := conv2.messages ++
      [{ role := .user, content := userMessage, timestamp := some w.now }] }

/-- The tool-result messages appended after an assistant turn: one
`tool` message per tool call, in order, carrying that call's id. -/
def toolResultMessages (w : AgentWorld) (toolCalls : List BrowserToolCall)
    (results : List BrowserToolResult) : List AIMessage :=
  List.zipWith (fun (tc : BrowserToolCall) (r : BrowserToolResult) =>
    ({ role := .tool, content := formatToolResult w r,
       toolCallId := some tc.id, timestamp := some w.now } : AIMessage))
    toolCalls results

/-- `BrowserAgent.sendMessage`.  Returns the agent response, the updated
store, and the trace of provider calls.  The `catch` paths return with
whatever the in-place mutations of the stored conversation object had
already produced. -/
def sendMessage (w : AgentWorld) (store : ConvStore)
    (conversationId userMessage : String) (options : AgentExecutionOptions) :
    AgentResponse × ConvStore × List ProviderCall :=
  let store1 := (createOrGetConversation store conversationId options.pageId w.now).2
  let context := turnContext w options.pageId
  let conv4 := turnConversation w store conversationId userMessage options
  match w.service with
  | none =>
      ({ message := "I encountered an error: AI service " ++ options.serviceType ++
           " is not available. Please try again.", toolResults := [] },
       storeSet store1 conversationId conv4, [])
  | some svc =>
    match svc.respond conv4.messages with
    | .error e =>
        ({ message := "I encountered an error: " ++ e ++ ". Please try again.",
           toolResults := [] },
         storeSet store1 conversationId conv4,
         [.initial conv4.messages])
    | .ok response =>
      let baseMessage := jsOrStr response.content "I understand. Let me help you with that."
      let screenshot :=
        if jsTruthyBool options.includeScreenshot then context.screenshot else none
      let hasCalls :=
        match response.toolCalls with
        | some tcs => !tcs.isEmpty
        | none => false
      if hasCalls then
        let tcs := (response.toolCalls).getD []
        let toolResults := executeToolCalls w.driver tcs options
        let assistantMsg : AIMessage :=
          { role := .assistant, content := response.content,
            toolCalls := some tcs, timestamp := some w.now }
        let toolMsgs := toolResultMessages w tcs toolResults
        let conv5 :=
          { conv4 with messages := conv4.messages ++ [assistantMsg] ++ toolMsgs }
        let anySuccess := toolResults.any (·.success)
        let (finalMessage, provCalls) :=
          if anySuccess then
            let fu := getFollowUpResponse svc conv5.messages
            (jsOrStr fu.content baseMessage,
             [ProviderCall.initial conv4.messages,
              ProviderCall.followUp conv5.messages])
          else (baseMessage, [ProviderCall.initial conv4.messages])
        let contextUpdate := if w.ctxSummary ≠ "" then some w.ctxSummary else none
        let conv6 := { conv5 with lastActivity := w.now }
        ({ message := finalMessage, toolResults := toolResults,
           contextUpdate := contextUpdate, screenshot := screenshot },
         storeSet store1 conversationId conv6, provCalls)
      else
        let conv5 :=
          { conv4 with
            messages := conv4.messages ++
              [{ role := .assistant, content := response.content,
                 timestamp := some w.now }],
            lastActivity := w.now }
        ({ message := baseMessage, toolResults := [], screenshot := screenshot },
         storeSet store1 conversationId conv5,
         [.initial conv4.messages])

/-! ### Sample worlds for concrete evaluations -/

def trivialPageOracle : PageOracle :=
  { basicInfo := .ok none, content := .ok none, elements := .ok none,
    navigation := .ok none, viewport := .ok none, shot := .ok none }

def sampleDriver : Driver :=
  { ready := true, initOk := true, pages := ["p"],
    currentUrl := fun _ => "https://example.test/",
    fieldFill := fun _ _ _ => true,
    navigateRes := fun _ _ => { success := true },
    clickRes := fun _ _ => { success := true },
    evalRes := fun _ _ => { success := true },
    shotRes := fun _ _ => { success := true, screenshot := some [1, 2, 3] },
    pageOracle := fun _ => trivialPageOracle }

/-! ### Claim C1: dangerous tools and the confirmation gate -/

def c1ToolCall : BrowserToolCall :=
  { id := "call-1", name := "fill_form",
    arguments := { fields := some [("#a", "x")] } }

def c1Options : ToolExecutionOptions :=
  { pageId := "p", safetyLevel := some .moderate }

/-- C1, counterexample.  `fill_form` is classified `dangerous` and
`autoConfirm` is not set, yet with a granted `safetyLevel` of
`moderate` the call executes (`success = true`) and reaches the
driver's `fillForm` primitive — because `canExecuteTool` compares the
enum's *string* values and `"dangerous" <= "moderate"` holds
lexicographically.  This falsifies the claim that such a call always
returns `success = false` and never invokes a driver primitive,
regardless of the granted safety level. -/
theorem c1_counterexample :
    safetyOf c1ToolCall.name = .dangerous ∧
    jsTruthyBool c1Options.autoConfirm = false ∧
    (executeTool sampleDriver c1ToolCall c1Options).1.success = true ∧
    (executeTool sampleDriver c1ToolCall c1Options).2 =
      [ManagerCall.fillForm "p" [("#a", "x")]] := by
  decide

/-- C1, amended: a `dangerous` tool invoked without `autoConfirm` *and
without any granted `safetyLevel` option* yields the
confirmation-required `ToolResult` (`success = false`) and performs no
driver call at all. -/
theorem dangerous_without_autoconfirm_gated (d : Driver)
    (tc : BrowserToolCall) (options : ToolExecutionOptions)
    (hdanger : safetyOf tc.name = .dangerous)
    (hauto : jsTruthyBool options.autoConfirm = false)
    (hgrant : options.safetyLevel = none) :
    executeTool d tc options = (confirmationRequired tc.name .dangerous, []) ∧
    (confirmationRequired tc.name .dangerous).success = false := by
  have hgate : canExecuteTool tc.name ToolSafetyLevel.dangerous options = false := by
    simp [canExecuteTool, hauto, hgrant]
  refine ⟨?_, rfl⟩
  simp [executeTool, hdanger, hgate]

def c1wToolCall : BrowserToolCall :=
  { id := "call-2", name := "evaluate_script",
    arguments := { script := some "1+1" } }

def c1wOptions : ToolExecutionOptions := { pageId := "p" }

/-- Witness for the amended C1 theorem at a concrete dangerous call. -/
theorem dangerous_without_autoconfirm_gated_witness :
    executeTool sampleDriver c1wToolCall c1wOptions =
      (confirmationRequired c1wToolCall.name .dangerous, []) ∧
    (confirmationRequired c1wToolCall.name .dangerous).success = false :=
  dangerous_without_autoconfirm_gated sampleDriver c1wToolCall c1wOptions
    (by decide) (by decide) rfl

/-! ### Claim C7: unknown tools fail closed -/

/-- C7.  A tool name absent from `TOOL_SAFETY_LEVELS` resolves to
`moderate` (never `safe`), so without `autoConfirm` and without a
granted level the call is gated: it returns the confirmation-required
failure and performs no driver call. -/
theorem unknown_tool_fails_closed (d : Driver) (tc : BrowserToolCall)
    (options : ToolExecutionOptions)
    (hunknown : TOOL_SAFETY_LEVELS.lookup tc.name = none)
    (hauto : jsTruthyBool options.autoConfirm = false)
    (hgrant : options.safetyLevel = none) :
    safetyOf tc.name = .moderate ∧
    safetyOf tc.name ≠ .safe ∧
    executeTool d tc options = (confirmationRequired tc.name .moderate, []) ∧
    (confirmationRequired tc.name .moderate).success = false := by
  have hmod : safetyOf tc.name = .moderate := by
    simp [safetyOf, hunknown]
  have hgate : canExecuteTool tc.name ToolSafetyLevel.moderate options = false := by
    simp [canExecuteTool, hauto, hgrant]
  refine ⟨hmod, by simp [hmod], ?_, rfl⟩
  simp [executeTool, hmod, hgate]

def c7ToolCall : BrowserToolCall :=
  { id := "call-7", name := "frobnicate", arguments := {} }

def c7Options : ToolExecutionOptions := { pageId := "p" }

/-- Witness for C7 at a concrete unknown tool name. -/
theorem unknown_tool_fails_closed_witness :
    safetyOf c7ToolCall.name = .moderate ∧
    safetyOf c7ToolCall.name ≠ .safe ∧
    executeTool sampleDriver c7ToolCall c7Options =
      (confirmationRequired c7ToolCall.name .moderate, []) ∧
    (confirmationRequired c7ToolCall.name .moderate).success = false :=
  unknown_tool_fails_closed sampleDriver c7ToolCall c7Options
    (by decide) (by decide) rfl

/-! ### Claim C10: `type` with an empty text argument -/

/-- C10.  A `type` tool call whose arguments hold a non-empty selector
and the *empty string* as `text` is rejected by `executeType`'s
`!selector || !text` falsiness check: `executeTool` always returns
`success = false` and never performs a page-action primitive (at most
the lazy `initialize`), and whenever the safety gate passes and the
driver session is ready the result is exactly the missing-argument
failure with an empty driver trace. -/
theorem type_empty_text_rejected (d : Driver) (tc : BrowserToolCall)
    (options : ToolExecutionOptions) (sel : String)
    (hname : tc.name = "type")
    (hsel : tc.arguments.selector = some sel)
    (hselNe : sel ≠ "")
    (htext : tc.arguments.text = some "") :
    ((executeTool d tc options).1.success = false ∧
     ∀ c ∈ (executeTool d tc options).2, c = ManagerCall.initBrowser) ∧
    (canExecuteTool "type" ToolSafetyLevel.moderate options = true →
     d.ready = true →
     executeTool d tc options =
       ({ success := false,
          error := some "Selector and text are required for type action" }, [])) := by
  have hlvl : safetyOf tc.name = ToolSafetyLevel.moderate := by
    rw [hname]; rfl
  have hdisp : dispatchTool d tc options =
      ({ success := false,
         error := some "Selector and text are required for type action" }, []) := by
    simp [dispatchTool, hname, executeType, hsel, htext]
  by_cases hgate : canExecuteTool tc.name ToolSafetyLevel.moderate options = true
  · by_cases hready : d.ready = true
    · have hfull : executeTool d tc options =
          ({ success := false,
             error := some "Selector and text are required for type action" }, []) := by
        simp [executeTool, hlvl, hgate, hready, hdisp]
      refine ⟨⟨?_, ?_⟩, fun _ _ => hfull⟩
      · rw [hfull]
      · rw [hfull]; intro c hc; cases hc
    · have hready' : d.ready = false := by
        cases h : d.ready
        · rfl
        · exact absurd h hready
      by_cases hinit : d.initOk = true
      · have hfull : executeTool d tc options =
            ({ success := false,
               error := some "Selector and text are required for type action" },
             [ManagerCall.initBrowser]) := by
          simp [executeTool, hlvl, hgate, hready', hinit, hdisp]
        refine ⟨⟨?_, ?_⟩, ?_⟩
        · rw [hfull]
        · rw [hfull]
          intro c hc
          simpa using hc
        · intro _ hr; exact absurd hr hready
      · have hinit' : d.initOk = false := by
          cases h : d.initOk
          · rfl
          · exact absurd h hinit
        have hfull : executeTool d tc options =
            ({ success := false,
               error := some "Failed to initialize browser automation" },
             [ManagerCall.initBrowser]) := by
          simp [executeTool, hlvl, hgate, hready', hinit']
        refine ⟨⟨?_, ?_⟩, ?_⟩
        · rw [hfull]
        · rw [hfull]
          intro c hc
          simpa using hc
        · intro _ hr; exact absurd hr hready
  · have hgate' : canExecuteTool tc.name ToolSafetyLevel.moderate options = false := by
      cases h : canExecuteTool tc.name ToolSafetyLevel.moderate options
      · rfl
      · exact absurd h hgate
    have hfull : executeTool d tc options =
        (confirmationRequired tc.name ToolSafetyLevel.moderate, []) := by
      simp [executeTool, hlvl, hgate']
    refine ⟨⟨?_, ?_⟩, ?_⟩
    · rw [hfull]; rfl
    · rw [hfull]; intro c hc; cases hc
    · intro hcan _
      rw [hname] at hgate'
      rw [hcan] at hgate'
      cases hgate'

def c10ToolCall : BrowserToolCall :=
  { id := "call-10", name := "type",
    arguments := { selector := some "#q", text := some "" } }

def c10Options : ToolExecutionOptions :=
  { pageId := "p", autoConfirm := some true }

/-- Witness for C10 at a concrete `type` call with empty text. -/
theorem type_empty_text_rejected_witness :
    ((executeTool sampleDriver c10ToolCall c10Options).1.success = false ∧
     ∀ c ∈ (executeTool sampleDriver c10ToolCall c10Options).2,
       c = ManagerCall.initBrowser) ∧
    (canExecuteTool "type" ToolSafetyLevel.moderate c10Options = true →
     sampleDriver.ready = true →
     executeTool sampleDriver c10ToolCall c10Options =
       ({ success := false,
          error := some "Selector and text are required for type action" }, [])) :=
  type_empty_text_rejected sampleDriver c10ToolCall c10Options "#q"
    rfl rfl (by decide) rfl

/-! ### Claim C2: `fill_form` per-field isolation and the dropped map -/

def c2Fields : List (String × String) :=
  [("#f1", "a"), ("#f2", "b"), ("#f3", "c")]

def c2Driver : Driver :=
  { sampleDriver with
    currentUrl := fun _ => "https://form.test/",
    fieldFill := fun _ sel _ => sel ≠ "#f2" }

def c2ToolCall : BrowserToolCall :=
  { id := "call-3", name := "fill_form", arguments := { fields := some c2Fields } }

def c2Options : ToolExecutionOptions :=
  { pageId := "p", autoConfirm := some true }

/-- C2, counterexample.  With 3 fields where field 2 fails to resolve,
the driver-level result does carry the per-field map
`{#f1: true, #f2: false, #f3: true}` and `success = true`, but the
`ToolResult` returned by `executeTool` has `data = none`:
`executeFillForm` forwards only `success`/`error` and drops the
per-field result map, falsifying the claim that the returned
`ToolResult` carries it. -/
theorem c2_counterexample :
    (pmFillForm c2Driver "p" c2Fields).success = true ∧
    (pmFillForm c2Driver "p" c2Fields).data =
      some (.formResults [("#f1", true), ("#f2", false), ("#f3", true)]
        "https://form.test/") ∧
    (executeTool c2Driver c2ToolCall c2Options).1.success = true ∧
    (executeTool c2Driver c2ToolCall c2Options).1.data = none := by
  decide

/-- C2, amended.  Fields are filled independently — each entry of the
per-field map is that field's own outcome, so one failure does not
abort the others — and the driver's `AutomationResult` is
`success = true` with the map in `data`; the `ToolResult` returned by
`executeTool` (gate passed, driver ready) has `success = true` and the
"Filled 3 form fields" message but no per-field map (`data = none`),
with exactly the one `fillForm` driver call in the trace. -/
theorem fill_form_per_field_isolation (d : Driver) (pid : String)
    (f1 v1 f2 v2 f3 v3 tcid : String) (options : ToolExecutionOptions)
    (hpage : pid ∈ d.pages)
    (hready : d.ready = true)
    (h1 : d.fieldFill pid f1 v1 = true)
    (h2 : d.fieldFill pid f2 v2 = false)
    (h3 : d.fieldFill pid f3 v3 = true)
    (hopt : options.pageId = pid)
    (hauto : jsTruthyBool options.autoConfirm = true)
    (hupd : jsTruthyBool options.updateContext = false) :
    pmFillForm d pid [(f1, v1), (f2, v2), (f3, v3)] =
      { success := true,
        data := some (.formResults [(f1, true), (f2, false), (f3, true)]
          (d.currentUrl pid)) } ∧
    (executeTool d
        { id := tcid, name := "fill_form",
          arguments := { fields := some [(f1, v1), (f2, v2), (f3, v3)] } }
        options).1 =
      { success := true, data := none, error := none, screenshot := none,
        message := some "Filled 3 form fields" } ∧
    (executeTool d
        { id := tcid, name := "fill_form",
          arguments := { fields := some [(f1, v1), (f2, v2), (f3, v3)] } }
        options).2 = [.fillForm pid [(f1, v1), (f2, v2), (f3, v3)]] := by
  have hpm : pmFillForm d pid [(f1, v1), (f2, v2), (f3, v3)] =
      { success := true,
        data := some (.formResults [(f1, true), (f2, false), (f3, true)]
          (d.currentUrl pid)) } := by
    simp [pmFillForm, hpage, h1, h2, h3]
  have hgate : canExecuteTool "fill_form" ToolSafetyLevel.dangerous options = true := by
    simp [canExecuteTool, hauto]
  have hsf : safetyOf "fill_form" = ToolSafetyLevel.dangerous := rfl
  refine ⟨hpm, ?_, ?_⟩ <;>
    simp [executeTool, hsf, hgate, hready, dispatchTool, executeFillForm,
      hopt, hpm, hupd] <;> rfl

def c2wDriver : Driver :=
  { sampleDriver with
    currentUrl := fun _ => "https://w.test/",
    fieldFill := fun _ sel _ => sel ≠ "#g2" }

/-! ### Whitespace-collapse lemmas for the content summary -/

/-- Every character of a collapsed list is either an inserted space or a
character of the input. -/
theorem collapseRuns_mem (p : Char → Bool) :
    ∀ (b : Bool) (l : List Char) (c : Char),
      c ∈ collapseRuns p b l → c = ' ' ∨ c ∈ l := by
  intro b l
  induction l generalizing b with
  | nil => intro c hc; simp [collapseRuns] at hc
  | cons x rest ih =>
    intro c hc
    by_cases hx : p x = true
    · cases b with
      | true =>
        simp only [collapseRuns, hx, if_pos, if_true] at hc
        rcases ih true c hc with h | h
        · exact Or.inl h
        · exact Or.inr (List.mem_cons_of_mem _ h)
      | false =>
        simp only [collapseRuns, hx, if_pos, if_true] at hc
        rcases List.mem_cons.mp hc with h | h
        · exact Or.inl h
        · rcases ih true c h with h' | h'
          · exact Or.inl h'
          · exact Or.inr (List.mem_cons_of_mem _ h')
    · simp only [collapseRuns, hx, if_neg, Bool.false_eq_true,
        if_false] at hc
      rcases List.mem_cons.mp hc with h | h
      · exact Or.inr (h ▸ List.mem_cons_self _ _)
      · rcases ih false c h with h' | h'
        · exact Or.inl h'
        · exact Or.inr (List.mem_cons_of_mem _ h')

/-- In a collapsed list, every character satisfying `p` is the
single space the collapse inserted. -/
theorem collapseRuns_p_space (p : Char → Bool) :
    ∀ (b : Bool) (l : List Char) (c : Char),
      c ∈ collapseRuns p b l → p c = true → c = ' ' := by
  intro b l
  induction l generalizing b with
  | nil => intro c hc; simp [collapseRuns] at hc
  | cons x rest ih =>
    intro c hc hpc
    by_cases hx : p x = true
    · cases b with
      | true =>
        simp only [collapseRuns, hx, if_pos, if_true] at hc
        exact ih true c hc hpc
      | false =>
        simp only [collapseRuns, hx, if_pos, if_true] at hc
        rcases List.mem_cons.mp hc with h | h
        · exact h
        · exact ih true c h hpc
    · simp only [collapseRuns, hx, if_neg, Bool.false_eq_true,
        if_false] at hc
      rcases List.mem_cons.mp hc with h | h
      · subst h; exact absurd hpc (by simp [hx])
      · exact ih false c h hpc

/-- The head of a collapse started inside a run never satisfies `p`
(leading run characters are consumed). -/
theorem collapseRuns_head_not (p : Char → Bool) :
    ∀ (l : List Char) (c : Char),
      (collapseRuns p true l).head? = some c → p c = false := by
  intro l
  induction l with
  | nil => intro c hc; simp [collapseRuns] at hc
  | cons x rest ih =>
    intro c hc
    by_cases hx : p x = true
    · simp only [collapseRuns, hx, if_pos, if_true] at hc
      exact ih c hc
    · simp only [collapseRuns, hx, if_neg, Bool.false_eq_true,
        if_false, List.head?_cons, Option.some.injEq] at hc
      subst hc
      simp [hx]

/-- A collapsed list never contains two adjacent characters that both
satisfy `p` — runs really are collapsed. -/
theorem collapseRuns_chain (p : Char → Bool) :
    ∀ (b : Bool) (l : List Char),
      List.Chain' (fun a c => ¬(p a = true ∧ p c = true))
        (collapseRuns p b l) := by
  intro b l
  induction l generalizing b with
  | nil => simp [collapseRuns]
  | cons x rest ih =>
    by_cases hx : p x = true
    · cases b with
      | true => simpa only [collapseRuns, hx, if_pos, if_true] using ih true
      | false =>
        simp only [collapseRuns, hx, if_pos, if_true]
        refine List.chain'_cons'.mpr ⟨?_, ih true⟩
        intro y hy h
        have := collapseRuns_head_not p rest y hy
        rw [this] at h
        exact absurd h.2 (by simp)
    · simp only [collapseRuns, hx, if_neg, Bool.false_eq_true, if_false]
      refine List.chain'_cons'.mpr ⟨?_, ih false⟩
      intro y _ h
      exact absurd h.1 (by simp [hx])

/-- A collapse over a predicate nothing satisfies is the identity. -/
theorem collapseRuns_id (p : Char → Bool) :
    ∀ (b : Bool) (l : List Char), (∀ c ∈ l, p c = false) →
      collapseRuns p b l = l := by
  intro b l
  induction l generalizing b with
  | nil => intro _; rfl
  | cons x rest ih =>
    intro h
    have hx : p x = false := h x (List.mem_cons_self _ _)
    simp only [collapseRuns, hx, Bool.false_eq_true, if_false]
    rw [ih false (fun c hc => h c (List.mem_cons_of_mem _ hc))]

/-- Membership survives `jsTrim` (both ends are only stripped). -/
theorem jsTrim_mem {c : Char} {l : List Char} (h : c ∈ jsTrim l) : c ∈ l := by
  unfold jsTrim at h
  rw [List.mem_reverse] at h
  have h1 := (List.dropWhile_sublist (l := (l.dropWhile jsWhitespace).reverse)
    (p := jsWhitespace)).mem h
  rw [List.mem_reverse] at h1
  exact (List.dropWhile_sublist (l := l) (p := jsWhitespace)).mem h1

/-- `Chain'` survives `dropWhile` (the result is a suffix). -/
theorem chain'_dropWhile {R : Char → Char → Prop} (q : Char → Bool) :
    ∀ (l : List Char), List.Chain' R l → List.Chain' R (l.dropWhile q) := by
  intro l
  induction l with
  | nil => intro h; simpa using h
  | cons x rest ih =>
    intro h
    by_cases hx : q x = true
    · rw [List.dropWhile_cons_of_pos hx]
      exact ih h.tail
    · rwa [List.dropWhile_cons_of_neg (by simp [hx])]

/-- `Chain'` over a symmetric relation survives `jsTrim`. -/
theorem chain'_jsTrim {R : Char → Char → Prop}
    (hsymm : ∀ a b, R a b → R b a) (l : List Char)
    (h : List.Chain' R l) : List.Chain' R (jsTrim l) := by
  unfold jsTrim
  rw [List.chain'_reverse]
  refine chain'_dropWhile jsWhitespace _ ?_
  rw [List.chain'_reverse]
  refine (List.Chain'.imp ?_ (chain'_dropWhile jsWhitespace _ h))
  intro a b hab
  exact hsymm b a (hsymm a b hab)

/-- In `cleanContent`, every whitespace character is a plain space. -/
theorem cleanContent_ws_space (content : List Char) :
    ∀ c ∈ cleanContent content, jsWhitespace c = true → c = ' ' := by
  intro c hc hw
  unfold cleanContent at hc
  have hc1 := jsTrim_mem hc
  rcases collapseRuns_mem (fun c => c == '\n') false _ c hc1 with h | h
  · exact h
  · exact collapseRuns_p_space jsWhitespace false content c h hw

/-- `cleanContent` never contains two adjacent spaces. -/
theorem cleanContent_no_double_space (content : List Char) :
    List.Chain' (fun a c => ¬(a = ' ' ∧ c = ' ')) (cleanContent content) := by
  have hid : collapseRuns (fun c => c == '\n') false
      (collapseRuns jsWhitespace false content) =
      collapseRuns jsWhitespace false content := by
    refine collapseRuns_id _ false _ ?_
    intro c hc
    by_cases hnl : c = '\n'
    · subst hnl
      have := collapseRuns_p_space jsWhitespace false content '\n' hc (by decide)
      exact absurd this (by decide)
    · simp [hnl]
  unfold cleanContent
  rw [hid]
  refine chain'_jsTrim (fun a b hab h => hab ⟨h.2, h.1⟩) _ ?_
  refine List.Chain'.imp ?_ (collapseRuns_chain jsWhitespace false content)
  intro a b hab h
  exact hab ⟨by rw [h.1]; decide, by rw [h.2]; decide⟩

/-! ### Claim C5: content-summary truncation policy -/

def c5Content : List Char :=
  List.replicate 40 'a' ++ [' '] ++ List.replicate 959 'b'

/-- C5, counterexample.  For 1000-character content whose only space in
the 50-character truncation window sits at position 40 (exactly
`0.8 * 50`), the source's strict `lastSpace > maxLength * 0.8`
comparison is false, so the summary truncates hard — it does **not**
end at the space followed by `"..."` as the claim's particular case
asserts. -/
theorem c5_counterexample :
    c5Content.length = 1000 ∧
    lastIndexOf ' ' ((cleanContent c5Content).take 50) = some 40 ∧
    createContentSummary c5Content 50 =
      (List.replicate 40 'a' ++ [' '] ++ List.replicate 9 'b') ++ ellipsisChars ∧
    createContentSummary c5Content 50 ≠
      List.replicate 40 'a' ++ ellipsisChars := by
  decide

/-- C5, amended.  The summary collapses whitespace (all whitespace in
the cleaned content is single spaces, never doubled) and, for cleaned
content longer than `maxLength`, truncates to `maxLength` and backs up
to the last space of the window exactly when that space lies *strictly*
inside the last 20% of the window (`5 * lastSpace > 4 * maxLength`, the
integer form of the source's float comparison), otherwise truncates
hard; either way it appends `"..."` and the output never exceeds
`maxLength + 3` characters (so ≤ 54 for `maxLength = 50`; a space at
position 41 — not 40 — makes the output end at that space plus
`"..."`). -/
theorem createContentSummary_policy (content : List Char) (maxLength : Nat)
    (hne : content.isEmpty = false)
    (hlong : maxLength < (cleanContent content).length) :
    (∀ c ∈ cleanContent content, jsWhitespace c = true → c = ' ') ∧
    List.Chain' (fun a c => ¬(a = ' ' ∧ c = ' ')) (cleanContent content) ∧
    (∀ i, lastIndexOf ' ' ((cleanContent content).take maxLength) = some i →
        4 * maxLength < 5 * i →
        createContentSummary content maxLength =
          ((cleanContent content).take maxLength).take i ++ ellipsisChars) ∧
    (∀ i, lastIndexOf ' ' ((cleanContent content).take maxLength) = some i →
        ¬ (4 * maxLength < 5 * i) →
        createContentSummary content maxLength =
          (cleanContent content).take maxLength ++ ellipsisChars) ∧
    (lastIndexOf ' ' ((cleanContent content).take maxLength) = none →
        createContentSummary content maxLength =
          (cleanContent content).take maxLength ++ ellipsisChars) ∧
    (createContentSummary content maxLength).length ≤ maxLength + 3 := by
  have hnotle : ¬ ((cleanContent content).length ≤ maxLength) :=
    Nat.not_le.mpr hlong
  have htake : ((cleanContent content).take maxLength).length ≤ maxLength := by
    simp [List.length_take]
  refine ⟨cleanContent_ws_space content, cleanContent_no_double_space content,
    ?_, ?_, ?_, ?_⟩
  · intro i hi hcond
    simp [createContentSummary, hne, hnotle, hi, hcond]
  · intro i hi hcond
    simp [createContentSummary, hne, hnotle, hi, hcond]
  · intro hnone
    simp [createContentSummary, hne, hnotle, hnone]
  · have hellip : ellipsisChars.length = 3 := rfl
    rcases hidx : lastIndexOf ' ' ((cleanContent content).take maxLength) with _ | i
    · have h1 : createContentSummary content maxLength =
          (cleanContent content).take maxLength ++ ellipsisChars := by
        simp [createContentSummary, hne, hnotle, hidx]
      rw [h1, List.length_append, hellip]
      omega
    · by_cases hcond : 4 * maxLength < 5 * i
      · have h1 : createContentSummary content maxLength =
            ((cleanContent content).take maxLength).take i ++ ellipsisChars := by
          simp [createContentSummary, hne, hnotle, hidx, hcond]
        have h2 : (((cleanContent content).take maxLength).take i).length ≤
            ((cleanContent content).take maxLength).length := by
          rw [List.length_take]
          exact min_le_right _ _
        rw [h1, List.length_append, hellip]
        omega
      · have h1 : createContentSummary content maxLength =
            (cleanContent content).take maxLength ++ ellipsisChars := by
          simp [createContentSummary, hne, hnotle, hidx, hcond]
        rw [h1, List.length_append, hellip]
        omega

def c5wContent : List Char :=
  List.replicate 41 'a' ++ [' '] ++ List.replicate 958 'b'

/-- Witness for the amended C5 theorem: 1000-character content with the
window's last space at position 41 (strictly inside the last 20%), where
the summary does end at that space plus `"..."` and is 44 ≤ 54
characters. -/
theorem createContentSummary_policy_witness :
    (c5wContent.length = 1000 ∧
     lastIndexOf ' ' ((cleanContent c5wContent).take 50) = some 41 ∧
     createContentSummary c5wContent 50 =
       List.replicate 41 'a' ++ ellipsisChars ∧
     (createContentSummary c5wContent 50).length ≤ 54) ∧
    ((∀ c ∈ cleanContent c5wContent, jsWhitespace c = true → c = ' ') ∧
     List.Chain' (fun a c => ¬(a = ' ' ∧ c = ' ')) (cleanContent c5wContent) ∧
     (∀ i, lastIndexOf ' ' ((cleanContent c5wContent).take 50) = some i →
         4 * 50 < 5 * i →
         createContentSummary c5wContent 50 =
           ((cleanContent c5wContent).take 50).take i ++ ellipsisChars) ∧
     (∀ i, lastIndexOf ' ' ((cleanContent c5wContent).take 50) = some i →
         ¬ (4 * 50 < 5 * i) →
         createContentSummary c5wContent 50 =
           (cleanContent c5wContent).take 50 ++ ellipsisChars) ∧
     (lastIndexOf ' ' ((cleanContent c5wContent).take 50) = none →
         createContentSummary c5wContent 50 =
           (cleanContent c5wContent).take 50 ++ ellipsisChars) ∧
     (createContentSummary c5wContent 50).length ≤ 50 + 3) :=
  ⟨⟨by decide, by decide, by decide, by decide⟩,
   createContentSummary_policy c5wContent 50 (by decide) (by decide)⟩

/-- Witness for the amended C2 theorem at a concrete 3-field form. -/
theorem fill_form_per_field_isolation_witness :
    pmFillForm c2wDriver "p" [("#g1", "x"), ("#g2", "y"), ("#g3", "z")] =
      { success := true,
        data := some (.formResults [("#g1", true), ("#g2", false), ("#g3", true)]
          (c2wDriver.currentUrl "p")) } ∧
    (executeTool c2wDriver
        { id := "w2", name := "fill_form",
          arguments := { fields := some [("#g1", "x"), ("#g2", "y"), ("#g3", "z")] } }
        c2Options).1 =
      { success := true, data := none, error := none, screenshot := none,
        message := some "Filled 3 form fields" } ∧
    (executeTool c2wDriver
        { id := "w2", name := "fill_form",
          arguments := { fields := some [("#g1", "x"), ("#g2", "y"), ("#g3", "z")] } }
        c2Options).2 = [.fillForm "p" [("#g1", "x"), ("#g2", "y"), ("#g3", "z")]] :=
  fill_form_per_field_isolation c2wDriver "p" "#g1" "x" "#g2" "y" "#g3" "z" "w2"
    c2Options (by decide) rfl (by decide) (by decide) (by decide) rfl rfl rfl

/-! ### Claims C6 and C8: context extraction -/

/-- Shape invariant of every snapshot the `try` block can build: its
`error` field is unset, and the navigation fields only ever hold
`undefined` (the reads off the success wrapper) or the fallback's
`false` / `[]` — never `true` and never a non-empty history. -/
theorem extractBody_ok_inv (o : PageOracle) (options : BrowserContextOptions)
    (c : BrowserContext) (h : extractContextBody o options = .ok c) :
    c.error = none ∧
    (c.canGoForward = none ∨ c.canGoForward = some false) ∧
    (c.navigationHistory = none ∨ c.navigationHistory = some []) := by
  unfold extractContextBody at h
  cases hb : getBasicPageInfo o with
  | error e => rw [hb] at h; cases h
  | ok pageInfo =>
  rw [hb] at h
  cases hc : getPageContentText o with
  | error e => rw [hc] at h; cases h
  | ok pageContent =>
  rw [hc] at h
  cases he : extractInteractiveElements o with
  | error e => rw [he] at h; cases h
  | ok elements =>
  rw [he] at h
  cases hn : getNavigationState o with
  | error e => rw [hn] at h; cases h
  | ok nav =>
  rw [hn] at h
  cases hv : getViewportInfo o with
  | error e => rw [hv] at h; cases h
  | ok vp =>
  rw [hv] at h
  cases hs : getScreenshotStep o (jsTruthyBool options.includeScreenshot) with
  | error e => rw [hs] at h; cases h
  | ok screenshot =>
  rw [hs] at h
  cases h
  refine ⟨rfl, ?_, ?_⟩ <;> cases nav with
  | wrapper v => exact Or.inl rfl
  | fallback => exact Or.inr rfl

/-- C6.  Context extraction is a total function of the page oracle —
it cannot propagate a driver exception — and whenever the extraction
body fails internally (hypothesis `h`), the caller receives the minimal
snapshot: `error` populated with the thrown message and every element
collection a real (defined) empty array. -/
theorem extractContext_error_path (o : PageOracle)
    (options : BrowserContextOptions) (e : String)
    (h : extractContextBody o options = .error e) :
    extractContext o options = minimalContext e o.time1 ∧
    (extractContext o options).error = some e ∧
    (extractContext o options).clickableElements = some [] ∧
    (extractContext o options).formFields = some [] ∧
    (extractContext o options).links = some [] ∧
    (extractContext o options).buttons = some [] ∧
    (extractContext o options).inputs = some [] := by
  have h1 : extractContext o options = minimalContext e o.time1 := by
    unfold extractContext
    rw [h]
  refine ⟨h1, ?_, ?_, ?_, ?_, ?_, ?_⟩ <;> rw [h1] <;> rfl

def c6Oracle : PageOracle :=
  { basicInfo := .error "page crashed", content := .ok none,
    elements := .ok none, navigation := .ok none, viewport := .ok none,
    shot := .ok none, time1 := 42 }

/-- Witness for C6: a concrete oracle whose very first driver call
rejects. -/
theorem extractContext_error_path_witness :
    extractContext c6Oracle {} = minimalContext "page crashed" 42 ∧
    (extractContext c6Oracle {}).error = some "page crashed" ∧
    (extractContext c6Oracle {}).clickableElements = some [] ∧
    (extractContext c6Oracle {}).formFields = some [] ∧
    (extractContext c6Oracle {}).links = some [] ∧
    (extractContext c6Oracle {}).buttons = some [] ∧
    (extractContext c6Oracle {}).inputs = some [] :=
  extractContext_error_path c6Oracle {} "page crashed" rfl

def c8okBasic : BasicPageInfo :=
  { url := "https://ex.test/a", title := "Ex", domain := "ex.test",
    protocol := "https:" }

def c8okElements : ElementsData :=
  { buttons := [], links := [], inputs := [], formFields := [],
    clickable := [] }

def c8okViewport : ViewportState :=
  { viewport := { width := 800, height := 600 }, scroll := { x := 0, y := 0 } }

/-- An oracle for a fully healthy page: every driver call succeeds and
the navigation probe runs on a page with `window.history.length = 2`. -/
def c8okOracle : PageOracle :=
  { basicInfo := .ok (some c8okBasic),
    content := .ok (some "hello world"),
    elements := .ok (some c8okElements),
    navigation := .ok (some 2),
    viewport := .ok (some c8okViewport),
    shot := .ok none }

/-- An oracle whose navigation probe fails as a driver result
(`success: false`), exercising the typed fallback. -/
def c8failOracle : PageOracle :=
  { basicInfo := .ok none, content := .ok none, elements := .ok none,
    navigation := .ok none, viewport := .ok none, shot := .ok none }

/-- C8.  The claim says `canGoForward` is always `false` and
`navigationHistory` always `[]`, "both when the in-page probe succeeds
and when it fails".  The code delivers that only on the failure paths:
on every *successful* probe the service returns `evaluateScript`'s
`data: { result }` wrapper raw, so the snapshot's `canGoForward` and
`navigationHistory` are `undefined` (`none`) — the script's hard-coded
`false`/`[]` sit unread under the wrapper's `result` key.  This theorem
evaluates the code at the failing input (a successful probe on a page
with `window.history.length = 2`), shows the failure path does produce
`false`/`[]`, and proves that in no case is forward navigation
fabricated (`canGoForward` is never `some true`, the history never
non-empty). -/
theorem navigation_probe_wrapper_bug :
    ((extractContext c8okOracle {}).canGoForward = none ∧
     (extractContext c8okOracle {}).navigationHistory = none) ∧
    ((extractContext c8failOracle {}).canGoForward = some false ∧
     (extractContext c8failOracle {}).navigationHistory = some []) ∧
    (∀ (o : PageOracle) (options : BrowserContextOptions),
      (extractContext o options).canGoForward ≠ some true ∧
      ((extractContext o options).navigationHistory = none ∨
       (extractContext o options).navigationHistory = some [])) := by
  refine ⟨by decide, by decide, ?_⟩
  intro o options
  cases hbody : extractContextBody o options with
  | ok c =>
    have hinv := extractBody_ok_inv o options c hbody
    have hctx : extractContext o options = c := by
      unfold extractContext
      rw [hbody]
    rw [hctx]
    constructor
    · rcases hinv.2.1 with h | h <;> rw [h] <;> simp
    · exact hinv.2.2
  | error e =>
    have hctx : extractContext o options = minimalContext e o.time1 := by
      unfold extractContext
      rw [hbody]
    rw [hctx]
    exact ⟨by simp [minimalContext], Or.inr rfl⟩

/-! ### Claim C9: clearing a conversation -/

theorem lookup_filter_ne (store : ConvStore) (id1 id2 : String)
    (hne : id1 ≠ id2) :
    (store.filter (fun p => p.1 ≠ id1)).lookup id2 = store.lookup id2 := by
  induction store with
  | nil => rfl
  | cons p rest ih =>
    obtain ⟨k, v⟩ := p
    by_cases hk : k = id1
    · subst hk
      have hstep : List.filter (fun p => p.1 ≠ k) ((k, v) :: rest) =
          List.filter (fun p => p.1 ≠ k) rest := by
        simp [List.filter_cons]
      have h2 : (id2 == k) = false := by
        simp only [beq_eq_false_iff_ne]
        exact fun h => hne (h ▸ rfl)
      have hlk : List.lookup id2 ((k, v) :: rest) = List.lookup id2 rest := by
        simp [List.lookup, h2]
      rw [hstep, hlk]
      exact ih
    · have hstep : List.filter (fun p => p.1 ≠ id1) ((k, v) :: rest) =
          (k, v) :: List.filter (fun p => p.1 ≠ id1) rest := by
        simp [List.filter_cons, hk]
      by_cases hk2 : id2 = k
      · subst hk2
        rw [hstep]
        simp [List.lookup]
      · have h2 : (id2 == k) = false := by
          simp only [beq_eq_false_iff_ne]
          exact hk2
        have hlk : ∀ l : List (String × AgentConversation),
            List.lookup id2 ((k, v) :: l) = List.lookup id2 l := by
          intro l
          simp [List.lookup, h2]
        rw [hstep, hlk, hlk]
        exact ih

theorem lookup_filter_self (store : ConvStore) (id1 : String) :
    (store.filter (fun p => p.1 ≠ id1)).lookup id1 = none := by
  induction store with
  | nil => rfl
  | cons p rest ih =>
    obtain ⟨k, v⟩ := p
    by_cases hk : k = id1
    · subst hk
      have hstep : List.filter (fun p => p.1 ≠ k) ((k, v) :: rest) =
          List.filter (fun p => p.1 ≠ k) rest := by
        simp [List.filter_cons]
      rw [hstep]
      exact ih
    · have hstep : List.filter (fun p => p.1 ≠ id1) ((k, v) :: rest) =
          (k, v) :: List.filter (fun p => p.1 ≠ id1) rest := by
        simp [List.filter_cons, hk]
      have h2 : (id1 == k) = false := by
        simp only [beq_eq_false_iff_ne]
        exact fun h => hk (h ▸ rfl)
      have hlk : List.lookup id1 ((k, v) :: List.filter (fun p => p.1 ≠ id1) rest) =
          List.lookup id1 (List.filter (fun p => p.1 ≠ id1) rest) := by
        simp [List.lookup, h2]
      rw [hstep, hlk]
      exact ih

/-- Membership in the active list is membership among the store's
values plus the 24-hour freshness test (sorting only permutes). -/
theorem mem_getActiveConversations (s : ConvStore) (now : Nat)
    (c : AgentConversation) :
    c ∈ getActiveConversations s now ↔
      (c ∈ s.map Prod.snd ∧ now - c.lastActivity < maxAgeMs) := by
  unfold getActiveConversations
  rw [List.mem_mergeSort, List.mem_filter]
  simp

/-- C9.  Clearing conversation `id1` removes exactly that key: looking
up any other id is unchanged, `id1` no longer resolves, no conversation
with id `id1` appears in the active list, and every conversation stored
under another key keeps its active-list membership (in particular those
bound to the same page session, which the statement does not constrain). -/
theorem clear_conversation_isolated (store : ConvStore) (id1 id2 : String)
    (now : Nat) (hne : id1 ≠ id2)
    (hwf : ∀ p ∈ store, p.2.id = p.1) :
    getConversation (clearConversation store id1) id2 =
      getConversation store id2 ∧
    getConversation (clearConversation store id1) id1 = none ∧
    (∀ c ∈ getActiveConversations (clearConversation store id1) now,
      c.id ≠ id1) ∧
    (∀ c, (id2, c) ∈ store →
      (c ∈ getActiveConversations (clearConversation store id1) now ↔
       c ∈ getActiveConversations store now)) := by
  refine ⟨lookup_filter_ne store id1 id2 hne, lookup_filter_self store id1,
    ?_, ?_⟩
  · intro c hc
    have hmem := (mem_getActiveConversations _ now c).mp hc
    rcases List.mem_map.mp hmem.1 with ⟨p, hp, hpc⟩
    have hps := List.mem_filter.mp hp
    have hid : c.id = p.1 := by
      rw [← hpc]
      exact hwf p (List.mem_of_mem_filter hp)
    rw [hid]
    intro hcontra
    rw [hcontra] at hps
    simp at hps
  · intro c hcmem
    have hin1 : c ∈ (clearConversation store id1).map Prod.snd := by
      refine List.mem_map.mpr ⟨(id2, c), ?_, rfl⟩
      refine List.mem_filter.mpr ⟨hcmem, ?_⟩
      simp
      exact fun h => hne h.symm
    have hin2 : c ∈ store.map Prod.snd :=
      List.mem_map.mpr ⟨(id2, c), hcmem, rfl⟩
    rw [mem_getActiveConversations, mem_getActiveConversations]
    constructor
    · intro h
      exact ⟨hin2, h.2⟩
    · intro h
      exact ⟨hin1, h.2⟩

def c9ConvA : AgentConversation :=
  { id := "a", messages := [], pageId := "p", createdAt := 0,
    lastActivity := 100 }

def c9ConvB : AgentConversation :=
  { id := "b", messages := [], pageId := "p", createdAt := 0,
    lastActivity := 200 }

def c9Store : ConvStore := [("a", c9ConvA), ("b", c9ConvB)]

/-- Witness for C9: clearing `"a"` in a two-conversation store sharing
one page session. -/
theorem clear_conversation_isolated_witness :
    getConversation (clearConversation c9Store "a") "b" =
      getConversation c9Store "b" ∧
    getConversation (clearConversation c9Store "a") "a" = none ∧
    (∀ c ∈ getActiveConversations (clearConversation c9Store "a") 300,
      c.id ≠ "a") ∧
    (∀ c, ("b", c) ∈ c9Store →
      (c ∈ getActiveConversations (clearConversation c9Store "a") 300 ↔
       c ∈ getActiveConversations c9Store 300)) :=
  clear_conversation_isolated c9Store "a" "b" 300 (by decide) (by decide)

/-! ### Claims C3 and C4: the assistant-turn protocol -/

theorem lookup_map_overwrite (id : String) (c : AgentConversation) :
    ∀ store : ConvStore, (store.lookup id).isSome →
      (store.map (fun p => if p.1 = id then (id, c) else p)).lookup id =
        some c := by
  intro store
  induction store with
  | nil => intro h; simp [List.lookup] at h
  | cons p rest ih =>
    obtain ⟨k, v⟩ := p
    intro h
    by_cases hk : k = id
    · subst hk
      simp only [List.map_cons, if_pos, if_true]
      simp [List.lookup]
    · have h2 : (id == k) = false := by
        simp only [beq_eq_false_iff_ne]
        exact fun hh => hk hh.symm
      have hrest : (rest.lookup id).isSome := by
        rw [List.lookup] at h
        rw [h2] at h
        exact h
      have hhead : ((k, v) :: rest.map
          (fun p => if p.1 = id then (id, c) else p)).lookup id =
          (rest.map (fun p => if p.1 = id then (id, c) else p)).lookup id := by
        simp [List.lookup, h2]
      simp only [List.map_cons, if_neg hk]
      rw [hhead]
      exact ih hrest

theorem lookup_append_new (id : String) (c : AgentConversation) :
    ∀ store : ConvStore, store.lookup id = none →
      (store ++ [(id, c)]).lookup id = some c := by
  intro store
  induction store with
  | nil => intro _; simp [List.lookup]
  | cons p rest ih =>
    obtain ⟨k, v⟩ := p
    intro h
    by_cases hk : id = k
    · subst hk
      simp [List.lookup] at h
    · have h2 : (id == k) = false := by
        simp only [beq_eq_false_iff_ne]
        exact hk
      have hrest : rest.lookup id = none := by
        rw [List.lookup, h2] at h
        exact h
      simp only [List.cons_append]
      rw [List.lookup, h2]
      exact ih hrest

/-- `Map.set` then `Map.get` returns the stored value. -/
theorem lookup_storeSet (store : ConvStore) (id : String)
    (c : AgentConversation) : (storeSet store id c).lookup id = some c := by
  unfold storeSet
  by_cases h : (store.lookup id).isSome
  · rw [if_pos h]
    exact lookup_map_overwrite id c store h
  · rw [if_neg h]
    refine lookup_append_new id c store ?_
    cases hl : store.lookup id with
    | none => rfl
    | some v => rw [hl] at h; simp at h

theorem toolResultMessages_length (w : AgentWorld)
    (tcs : List BrowserToolCall) (results : List BrowserToolResult)
    (h : results.length = tcs.length) :
    (toolResultMessages w tcs results).length = tcs.length := by
  unfold toolResultMessages
  rw [List.length_zipWith, h, min_self]

theorem toolResultMessages_roles (w : AgentWorld) :
    ∀ (tcs : List BrowserToolCall) (results : List BrowserToolResult),
      results.length = tcs.length →
      (toolResultMessages w tcs results).map (fun m => m.role) =
        List.replicate tcs.length Role.tool := by
  intro tcs
  induction tcs with
  | nil => intro results _; rfl
  | cons tc rest ih =>
    intro results h
    cases results with
    | nil => simp at h
    | cons r rs =>
      simp only [toolResultMessages, List.zipWith_cons_cons, List.map_cons,
        List.length_cons, List.replicate_succ]
      refine congrArg _ ?_
      exact ih rs (by simpa using h)

theorem toolResultMessages_ids (w : AgentWorld) :
    ∀ (tcs : List BrowserToolCall) (results : List BrowserToolResult),
      results.length = tcs.length →
      (toolResultMessages w tcs results).map (fun m => m.toolCallId) =
        tcs.map (fun tc => some tc.id) := by
  intro tcs
  induction tcs with
  | nil => intro results _; rfl
  | cons tc rest ih =>
    intro results h
    cases results with
    | nil => simp at h
    | cons r rs =>
      simp only [toolResultMessages, List.zipWith_cons_cons, List.map_cons]
      refine congrArg _ ?_
      exact ih rs (by simpa using h)

/-- C3.  When the backend's turn returns tool calls, the stored
conversation after `sendMessage` is exactly the pre-turn history
(`turnConversation`) extended by the assistant message carrying the
tool calls and then one `tool` message per call: as many tool messages
as tool calls, all with role `tool`, and their correlation ids equal,
in order, to the ids of the tool calls. -/
theorem assistant_turn_append_invariant (w : AgentWorld) (store : ConvStore)
    (cid umsg : String) (options : AgentExecutionOptions)
    (svc : AIServiceModel) (response : AIResponse) (tcs : List BrowserToolCall)
    (hsvc : w.service = some svc)
    (hresp : svc.respond (turnConversation w store cid umsg options).messages =
      .ok response)
    (htcs : response.toolCalls = some tcs)
    (hne : tcs ≠ []) :
    getConversation (sendMessage w store cid umsg options).2.1 cid =
      some { turnConversation w store cid umsg options with
        messages := (turnConversation w store cid umsg options).messages ++
          [{ role := .assistant, content := response.content,
             toolCalls := some tcs, timestamp := some w.now }] ++
          toolResultMessages w tcs (executeToolCalls w.driver tcs options),
        lastActivity := w.now } ∧
    (executeToolCalls w.driver tcs options).length = tcs.length ∧
    (toolResultMessages w tcs (executeToolCalls w.driver tcs options)).length =
      tcs.length ∧
    (toolResultMessages w tcs (executeToolCalls w.driver tcs options)).map
      (fun m => m.role) = List.replicate tcs.length Role.tool ∧
    (toolResultMessages w tcs (executeToolCalls w.driver tcs options)).map
      (fun m => m.toolCallId) = tcs.map (fun tc => some tc.id) := by
  have hlen : (executeToolCalls w.driver tcs options).length = tcs.length :=
    List.length_map _ _
  have hie : tcs.isEmpty = false := by
    cases tcs with
    | nil => exact absurd rfl hne
    | cons a l => rfl
  refine ⟨?_, hlen, toolResultMessages_length w tcs _ hlen,
    toolResultMessages_roles w tcs _ hlen, toolResultMessages_ids w tcs _ hlen⟩
  unfold sendMessage getConversation
  simp only [hsvc, hresp, htcs, hie, Option.getD_some, Bool.not_false, if_true]
  exact lookup_storeSet _ cid _

/-- C4.  In a tool-call turn, the recorded results are exactly the
per-call `executeTool` outcomes mapped over the batch in the backend's
order (so every result is recorded, in order, failures included); the
follow-up provider call appears in the provider trace if and only if at
least one result succeeded; and when none succeeded the final message
is the original assistant text (with the canned fallback only for an
empty assistant text, as in the source). -/
theorem batch_results_and_followup (w : AgentWorld) (store : ConvStore)
    (cid umsg : String) (options : AgentExecutionOptions)
    (svc : AIServiceModel) (response : AIResponse) (tcs : List BrowserToolCall)
    (hsvc : w.service = some svc)
    (hresp : svc.respond (turnConversation w store cid umsg options).messages =
      .ok response)
    (htcs : response.toolCalls = some tcs)
    (hne : tcs ≠ []) :
    (sendMessage w store cid umsg options).1.toolResults =
      tcs.map (fun tc => (executeTool w.driver tc
        { pageId := options.pageId, autoConfirm := options.autoConfirm,
          safetyLevel := options.safetyLevel, updateContext := some true }).1) ∧
    ((∃ msgs, ProviderCall.followUp msgs ∈
        (sendMessage w store cid umsg options).2.2) ↔
      (executeToolCalls w.driver tcs options).any (fun r => r.success) = true) ∧
    ((executeToolCalls w.driver tcs options).any (fun r => r.success) = false →
      (sendMessage w store cid umsg options).1.message =
        jsOrStr response.content "I understand. Let me help you with that.") := by
  have hie : tcs.isEmpty = false := by
    cases tcs with
    | nil => exact absurd rfl hne
    | cons a l => rfl
  by_cases hsucc :
      (executeToolCalls w.driver tcs options).any (fun r => r.success) = true
  · refine ⟨?_, ⟨fun _ => hsucc, fun _ => ?_⟩, fun hfalse => ?_⟩
    · unfold sendMessage
      simp only [hsvc, hresp, htcs, hie, Option.getD_some, Bool.not_false,
        if_true, hsucc]
      rfl
    · unfold sendMessage
      simp only [hsvc, hresp, htcs, hie, Option.getD_some, Bool.not_false,
        if_true, hsucc]
      exact ⟨_, List.mem_cons_of_mem _ (List.mem_cons_self _ _)⟩
    · rw [hsucc] at hfalse
      cases hfalse
  · have hsucc' :
        (executeToolCalls w.driver tcs options).any (fun r => r.success) = false := by
      cases h : (executeToolCalls w.driver tcs options).any (fun r => r.success)
      · rfl
      · exact absurd h hsucc
    refine ⟨?_, ⟨?_, fun h => absurd h hsucc⟩, fun _ => ?_⟩
    · unfold sendMessage
      simp only [hsvc, hresp, htcs, hie, Option.getD_some, Bool.not_false,
        if_true, hsucc']
      rfl
    · intro hex
      rcases hex with ⟨msgs, hmem⟩
      unfold sendMessage at hmem
      simp only [hsvc, hresp, htcs, hie, Option.getD_some, Bool.not_false,
        if_true, hsucc'] at hmem
      rcases List.mem_singleton.mp hmem with h
      cases h
    · unfold sendMessage
      simp only [hsvc, hresp, htcs, hie, Option.getD_some, Bool.not_false,
        if_true, hsucc', Bool.false_eq_true, if_false]

def wFailCall : BrowserToolCall :=
  { id := "k1", name := "wait_for_element", arguments := {} }

def wOkCall : BrowserToolCall :=
  { id := "k2", name := "screenshot", arguments := {} }

def wResponse : AIResponse :=
  { content := "working on it", toolCalls := some [wFailCall, wOkCall] }

def wService : AIServiceModel :=
  { supportsToolCalling := true, respond := fun _ => .ok wResponse }

def wWorld : AgentWorld :=
  { driver := sampleDriver, service := some wService,
    promptOf := fun _ => "PAGE CONTEXT", stringify := fun _ => "data",
    ctxSummary := "", now := 5 }

def wOptions : AgentExecutionOptions :=
  { serviceType := "openai", pageId := "p" }

/-- Witness for C3 at a concrete two-tool-call turn. -/
theorem assistant_turn_append_invariant_witness :
    getConversation (sendMessage wWorld [] "c1" "hello" wOptions).2.1 "c1" =
      some { turnConversation wWorld [] "c1" "hello" wOptions with
        messages :=
          (turnConversation wWorld [] "c1" "hello" wOptions).messages ++
          [{ role := .assistant, content := wResponse.content,
             toolCalls := some [wFailCall, wOkCall],
             timestamp := some wWorld.now }] ++
          toolResultMessages wWorld [wFailCall, wOkCall]
            (executeToolCalls wWorld.driver [wFailCall, wOkCall] wOptions),
        lastActivity := wWorld.now } ∧
    (executeToolCalls wWorld.driver [wFailCall, wOkCall] wOptions).length =
      ([wFailCall, wOkCall] : List BrowserToolCall).length ∧
    (toolResultMessages wWorld [wFailCall, wOkCall]
      (executeToolCalls wWorld.driver [wFailCall, wOkCall] wOptions)).length =
      ([wFailCall, wOkCall] : List BrowserToolCall).length ∧
    (toolResultMessages wWorld [wFailCall, wOkCall]
      (executeToolCalls wWorld.driver [wFailCall, wOkCall] wOptions)).map
      (fun m => m.role) =
      List.replicate ([wFailCall, wOkCall] : List BrowserToolCall).length
        Role.tool ∧
    (toolResultMessages wWorld [wFailCall, wOkCall]
      (executeToolCalls wWorld.driver [wFailCall, wOkCall] wOptions)).map
      (fun m => m.toolCallId) =
      ([wFailCall, wOkCall] : List BrowserToolCall).map
        (fun tc => some tc.id) :=
  assistant_turn_append_invariant wWorld [] "c1" "hello" wOptions wService
    wResponse [wFailCall, wOkCall] rfl rfl rfl (by decide)

/-- Witness for C4: a batch where call 1 fails (missing selector) and
call 2 succeeds, so both results are recorded in order and the
follow-up provider call runs. -/
theorem batch_results_and_followup_witness :
    ((executeToolCalls wWorld.driver [wFailCall, wOkCall] wOptions).map
      (fun r => r.success) = [false, true]) ∧
    ((sendMessage wWorld [] "c2" "go" wOptions).1.toolResults =
      ([wFailCall, wOkCall] : List BrowserToolCall).map
        (fun tc => (executeTool wWorld.driver tc
          { pageId := wOptions.pageId, autoConfirm := wOptions.autoConfirm,
            safetyLevel := wOptions.safetyLevel,
            updateContext := some true }).1) ∧
    ((∃ msgs, ProviderCall.followUp msgs ∈
        (sendMessage wWorld [] "c2" "go" wOptions).2.2) ↔
      (executeToolCalls wWorld.driver [wFailCall, wOkCall] wOptions).any
        (fun r => r.success) = true) ∧
    ((executeToolCalls wWorld.driver [wFailCall, wOkCall] wOptions).any
        (fun r => r.success) = false →
      (sendMessage wWorld [] "c2" "go" wOptions).1.message =
        jsOrStr wResponse.content
          "I understand. Let me help you with that.")) :=
  ⟨by decide,
   batch_results_and_followup wWorld [] "c2" "go" wOptions wService
     wResponse [wFailCall, wOkCall] rfl rfl rfl (by decide)⟩

end Brawza
